import Mathlib

/-!
# Verification development for the skybox GOES frame-resolution core

Shallow embedding of the repository's core modules:

* `src/lib/tleCache.ts`  — persistent conditionally-revalidated text cache,
* `src/lib/goes.ts`      — image freshness resolution, TLE handling,
  timestamp parsing, frame assembly, orbit propagation glue,
* `src/projectorMaterial.ts` — the multi-projector compositing fragment shader.

JS `Date` instants are modelled as milliseconds since the Unix epoch (`Int`).
JS regular expressions are modelled by a small backtracking matcher (`RE`)
with JS semantics (leftmost match, greedy/lazy quantifiers, capture groups,
word boundaries); each source regex is transliterated node by node.
-/

namespace Skybox

set_option maxRecDepth 8000

/-! ## Calendar arithmetic (model of the JS `Date` UTC calendar)

JS dates use the proleptic Gregorian calendar.  `daysFromCivil` /
`civilFromDays` are the standard exact integer algorithms (Howard Hinnant's),
using C-style truncated division exactly as stated there. -/

/-- Day number of a civil UTC date, with day 0 = 1970-01-01. -/
def daysFromCivil (y m d : Int) : Int :=
  let y1 := if m ≤ 2 then y - 1 else y
  let era := Int.tdiv (if 0 ≤ y1 then y1 else y1 - 399) 400
  let yoe := y1 - era * 400
  let doy := Int.tdiv (153 * (m + (if 2 < m then -3 else 9)) + 2) 5 + d - 1
  let doe := yoe * 365 + Int.tdiv yoe 4 - Int.tdiv yoe 100 + doy
  era * 146097 + doe - 719468

/-- Civil UTC date (year, month 1..12, day 1..31) of a day number. -/
def civilFromDays (z0 : Int) : Int × Int × Int :=
  let z := z0 + 719468
  let era := Int.tdiv (if 0 ≤ z then z else z - 146096) 146097
  let doe := z - era * 146097
  let yoe := Int.tdiv (doe - Int.tdiv doe 1460 + Int.tdiv doe 36524 - Int.tdiv doe 146096) 365
  let y := yoe + era * 400
  let doy := doe - (365 * yoe + Int.tdiv yoe 4 - Int.tdiv yoe 100)
  let mp := Int.tdiv (5 * doy + 2) 153
  let d := doy - Int.tdiv (153 * mp + 2) 5 + 1
  let m := mp + (if mp < 10 then 3 else -9)
  (y + (if m ≤ 2 then 1 else 0), m, d)

/-- Model of JS `Date.UTC(y, monthIndex, d, hh, mi, ss)` in epoch milliseconds.
Out-of-range month indices, days and time components roll over exactly as in
JS (linear arithmetic); two-digit years 0..99 map to 1900..1999. -/
def jsDateUTC (y monIdx d hh mi ss : Int) : Int :=
  let yA := if 0 ≤ y ∧ y ≤ 99 then y + 1900 else y
  let ym := yA + Int.fdiv monIdx 12
  let mz := Int.emod monIdx 12
  ((daysFromCivil ym (mz + 1) 1 + (d - 1)) * 86400 + hh * 3600 + mi * 60 + ss) * 1000

/-- Spec-side UTC instant in epoch milliseconds from in-range civil
components; used to state expected parsing results. -/
def utcMillis (y m d hh mi ss : Int) : Int :=
  (daysFromCivil y m d * 86400 + hh * 3600 + mi * 60 + ss) * 1000

/-! ## JS regular-expression model

A small backtracking matcher in continuation-passing style with explicit
fuel.  Greedy (`starG`, `optG`) and lazy (`starL`) quantifiers follow JS
backtracking order; `grp` records the text a capture group consumed (last
assignment wins, as in JS); `wordB` is the `\b` assertion; `atEnd` is `$`. -/

inductive RE where
  | eps   : RE
  | cls   : (Char → Bool) → RE
  | seq   : RE → RE → RE
  | alt   : RE → RE → RE
  | starG : RE → RE
  | starL : RE → RE
  | optG  : RE → RE
  | grp   : Nat → RE → RE
  | wordB : RE
  | atEnd : RE

/-- Captured groups of a match: group number paired with its text. -/
abbrev Caps := List (Nat × String)

/-- JS `\w`: ASCII letters, digits and underscore. -/
def isWordChar (c : Char) : Bool := c.isAlphanum || c = '_'

/-- `\b` holds where exactly one side of the position is a word char. -/
def atBoundary (prev : Option Char) (s : List Char) : Bool :=
  let l := match prev with | some c => isWordChar c | none => false
  let r := match s with | c :: _ => isWordChar c | [] => false
  l != r

/-- Backtracking matcher.  `prev` is the character before the current
position (for `\b`), `k` the continuation receiving the new position and
captures.  Fuel bounds recursion depth; callers supply enough for the
pattern and subject at hand. -/
def reM (fuel : Nat) (r : RE) (prev : Option Char) (s : List Char) (caps : Caps)
    (k : Option Char → List Char → Caps → Option (Caps × List Char)) :
    Option (Caps × List Char) :=
  match fuel with
  | 0 => none
  | fuel + 1 =>
    match r with
    | .eps => k prev s caps
    | .cls p =>
      match s with
      | [] => none
      | c :: rest => if p c then k (some c) rest caps else none
    | .seq a b => reM fuel a prev s caps fun p2 s2 c2 => reM fuel b p2 s2 c2 k
    | .alt a b =>
      match reM fuel a prev s caps k with
      | some res => some res
      | none => reM fuel b prev s caps k
    | .starG a =>
      match reM fuel a prev s caps (fun p2 s2 c2 =>
          if s2.length < s.length then reM fuel (.starG a) p2 s2 c2 k else none) with
      | some res => some res
      | none => k prev s caps
    | .starL a =>
      match k prev s caps with
      | some res => some res
      | none => reM fuel a prev s caps fun p2 s2 c2 =>
          if s2.length < s.length then reM fuel (.starL a) p2 s2 c2 k else none
    | .optG a =>
      match reM fuel a prev s caps k with
      | some res => some res
      | none => k prev s caps
    | .grp n a =>
      reM fuel a prev s caps fun p2 s2 c2 =>
        k p2 s2 (c2 ++ [(n, String.mk (s.take (s.length - s2.length)))])
    | .wordB => if atBoundary prev s then k prev s caps else none
    | .atEnd =>
      match s with
      | [] => k prev s caps
      | _ :: _ => none

/-- Fuel sufficient for one match attempt of our fixed patterns. -/
def fuelFor (s : List Char) : Nat := 8 * s.length + 400

/-- Scan for the leftmost match (JS unanchored search).  On success returns
the whole matched text, the captures, and the rest of the subject. -/
def searchAux (r : RE) : Option Char → List Char → Option (String × Caps × List Char)
  | prev, s =>
    match reM (fuelFor s) r prev s [] (fun _ rest caps => some (caps, rest)) with
    | some (caps, rest) =>
      some (String.mk (s.take (s.length - rest.length)), caps, rest)
    | none =>
      match s with
      | [] => none
      | c :: rest => searchAux r (some c) rest

/-- JS `string.match(re)` restricted to its captures (`null` ↦ `none`). -/
def reSearch (r : RE) (s : String) : Option Caps :=
  match searchAux r none s.data with
  | some (_, caps, _) => some caps
  | none => none

/-- JS `re.test(s)`. -/
def reTest (r : RE) (s : String) : Bool := (reSearch r s).isSome

/-- JS `string.matchAll(re)` (global flag): successive leftmost matches,
each resuming after the previous match. -/
def matchAllAux (r : RE) : Nat → Option Char → List Char → List (String × Caps)
  | 0, _, _ => []
  | fuel + 1, prev, s =>
    match searchAux r prev s with
    | none => []
    | some (whole, caps, rest) =>
      if rest.length < s.length then
        (whole, caps) :: matchAllAux r fuel whole.data.reverse.head? rest
      else [(whole, caps)]

/-- All matches of `r` in `s`, leftmost first. -/
def matchAll (r : RE) (s : String) : List (String × Caps) :=
  matchAllAux r (s.length + 1) none s.data

/-- Captured text of group `n` (last assignment wins, as in JS). -/
def capGet (caps : Caps) (n : Nat) : Option String :=
  (caps.reverse.find? fun p => p.1 = n).map (·.2)

/-! Pattern constructors used to transliterate the source regexes. -/

def seqs : List RE → RE
  | [] => .eps
  | [r] => r
  | r :: rs => .seq r (seqs rs)

def lit (c : Char) : RE := .cls fun x => x = c

def litCI (c : Char) : RE := .cls fun x => x.toLower = c.toLower

def strRe (s : String) : RE := seqs (s.data.map lit)

def strCI (s : String) : RE := seqs (s.data.map litCI)

def chOf (l : List Char) : RE := .cls fun c => l.contains c

def digitRe : RE := .cls Char.isDigit

def repN (n : Nat) (r : RE) : RE := seqs (List.replicate n r)

/-- JS `.` without the `s` flag: any char but a line terminator. -/
def dotRe : RE := .cls fun c => c ≠ '\n'

/-- `(?:jpg|png|jpeg)` under the `i` flag, alternatives in source order. -/
def extnRe : RE := .alt (strCI "jpg") (.alt (strCI "png") (strCI "jpeg"))

/-- `[-_]` (also written `[_-]` in the source). -/
def dashUnd : RE := chOf ['-', '_']

/-- `/(\d{8})[-_]?(\d{4})(\d{2})?\.(?:jpg|png|jpeg)(\?.*)?$/i` -/
def re1a : RE := seqs [.grp 1 (repN 8 digitRe), .optG dashUnd, .grp 2 (repN 4 digitRe),
  .optG (.grp 3 (repN 2 digitRe)), lit '.', extnRe,
  .optG (.grp 4 (.seq (lit '?') (.starG dotRe))), .atEnd]

/-- `/(\d{8})[-_]?(\d{4})(\d{2})?[^\/]*\.(?:jpg|png|jpeg)/i` -/
def re1b : RE := seqs [.grp 1 (repN 8 digitRe), .optG dashUnd, .grp 2 (repN 4 digitRe),
  .optG (.grp 3 (repN 2 digitRe)), .starG (.cls fun c => c ≠ '/'), lit '.', extnRe]

/-- `/(\d{4})(\d{2})(\d{2})[_-]?(\d{2})(\d{2})(\d{2})?[^\/]*\.(?:jpg|png|jpeg)/i` -/
def re2 : RE := seqs [.grp 1 (repN 4 digitRe), .grp 2 (repN 2 digitRe),
  .grp 3 (repN 2 digitRe), .optG dashUnd, .grp 4 (repN 2 digitRe),
  .grp 5 (repN 2 digitRe), .optG (.grp 6 (repN 2 digitRe)),
  .starG (.cls fun c => c ≠ '/'), lit '.', extnRe]

/-- `/\/(\d{4})\/(\d{3})\/.*?[-_](\d{2})(\d{2})(\d{2})?\.(?:jpg|png|jpeg)/i` -/
def re3 : RE := seqs [lit '/', .grp 1 (repN 4 digitRe), lit '/', .grp 2 (repN 3 digitRe),
  lit '/', .starL dotRe, dashUnd, .grp 3 (repN 2 digitRe), .grp 4 (repN 2 digitRe),
  .optG (.grp 5 (repN 2 digitRe)), lit '.', extnRe]

/-- Decimal value of an ASCII digit. -/
def digitVal (c : Char) : Nat :=
  if c = '1' then 1 else if c = '2' then 2 else if c = '3' then 3 else
  if c = '4' then 4 else if c = '5' then 5 else if c = '6' then 6 else
  if c = '7' then 7 else if c = '8' then 8 else if c = '9' then 9 else 0

/-- JS unary `+` on a string (`+m[k]` in the source); every call site
converts a regex capture made only of decimal digits. -/
def toNum (s : String) : Int :=
  Int.ofNat (s.data.foldl (fun n c => n * 10 + digitVal c) 0)

/-- JS `string.slice(a, b)`. -/
def strSlice (s : String) (a b : Nat) : String := String.mk ((s.data.drop a).take (b - a))

/-! ## `goes.ts` pure helpers -/

/-- `dateFromDayOfYearUTC` from `goes.ts`: `Date.UTC(year, 0, 1)` plus
`(doy-1)` days, read back as UTC year/month/day. -/
def dateFromDayOfYearUTC (year doy : Int) : Int × Int × Int :=
  let jan1 := jsDateUTC year 0 1 0 0 0
  let dtMs := jan1 + (doy - 1) * 24 * 3600 * 1000
  civilFromDays (Int.fdiv dtMs 86400000)

/-- `parseTimestampFromUrl` from `goes.ts`: the three supported URL shapes
tried in source order; components fed to `Date.UTC` (UTC). -/
def parseTimestampFromUrl (url : String) : Option Int :=
  match (match reSearch re1a url with
         | some caps => some caps
         | none => reSearch re1b url) with
  | some caps =>
    let g1 := (capGet caps 1).getD ""
    let g2 := (capGet caps 2).getD ""
    let y := toNum (strSlice g1 0 4)
    let mo := toNum (strSlice g1 4 6)
    let d := toNum (strSlice g1 6 8)
    let hh := toNum (strSlice g2 0 2)
    let mi := toNum (strSlice g2 2 4)
    let ss := match capGet caps 3 with | some g3 => toNum g3 | none => 0
    some (jsDateUTC y (mo - 1) d hh mi ss)
  | none =>
  match reSearch re2 url with
  | some caps =>
    let y := toNum ((capGet caps 1).getD "")
    let mo := toNum ((capGet caps 2).getD "")
    let d := toNum ((capGet caps 3).getD "")
    let hh := toNum ((capGet caps 4).getD "")
    let mi := toNum ((capGet caps 5).getD "")
    let ss := match capGet caps 6 with | some g6 => toNum g6 | none => 0
    some (jsDateUTC y (mo - 1) d hh mi ss)
  | none =>
  match reSearch re3 url with
  | some caps =>
    let y := toNum ((capGet caps 1).getD "")
    let doy := toNum ((capGet caps 2).getD "")
    let hh := toNum ((capGet caps 3).getD "")
    let mi := toNum ((capGet caps 4).getD "")
    let ss := match capGet caps 5 with | some g5 => toNum g5 | none => 0
    let c := dateFromDayOfYearUTC y doy
    some (jsDateUTC c.1 (c.2.1 - 1) c.2.2 hh mi ss)
  | none => none

/-- `parseGoesNFilenameTimestamp` from `goes.ts`: an 11-digit
`yyyydddhhmm` stamp (checked by `^\d{11}$`), else `null`. -/
def parseGoesNFilenameTimestamp (stamp : String) : Option Int :=
  if stamp.length == 11 && stamp.data.all Char.isDigit then
    let year := toNum (strSlice stamp 0 4)
    let doy := toNum (strSlice stamp 4 7)
    let hh := toNum (strSlice stamp 7 9)
    let mi := toNum (strSlice stamp 9 11)
    let c := dateFromDayOfYearUTC year doy
    some (jsDateUTC c.1 (c.2.1 - 1) c.2.2 hh mi 0)
  else none

/-! ## `tleCache.ts` model

The persistent store (`idb-keyval`) is modelled as a key/value map, an HTTP
response by its fields read by the source (`status`, `text()`, `url`,
`headers.get("etag")`, `headers.get("last-modified")`), and the injected
fetch strategy as a function of the URL and the two conditional headers the
source attaches; a rejected fetch is `Except.error`. -/

structure HttpResponse where
  status : Int
  body : String
  finalUrl : String
  etag : Option String
  lastModified : Option String
deriving DecidableEq, Repr

/-- `Response.ok`: status in the range 200..299. -/
def HttpResponse.ok (r : HttpResponse) : Bool :=
  decide (200 ≤ r.status ∧ r.status < 300)

/-- Injected fetch strategy: URL, `If-None-Match`, `If-Modified-Since`. -/
abbrev FetchFn := String → Option String → Option String → Except String HttpResponse

/-- `CachedText` from `tleCache.ts`. -/
structure CachedText where
  url : String
  body : String
  etag : Option String
  lastModified : Option String
  fetchedAt : Int
  ttlMs : Int
deriving DecidableEq, Repr

/-- The injected persistent key-value store (`idb-keyval`). -/
abbrev Store := String → Option CachedText

def emptyStore : Store := fun _ => none

/-- `idbGet`. -/
def storeGet (st : Store) (k : String) : Option CachedText := st k

/-- `idbSet`: last-write-wins overwrite. -/
def storeSet (st : Store) (k : String) (v : CachedText) : Store :=
  fun k2 => if k2 = k then some v else st k2

/-- `key(url)` from `tleCache.ts`. -/
def cacheKey (url : String) : String := "tle:" ++ url

/-- Outcome of one `fetchTextCached` call: the returned text (or the thrown
error), the updated store, and how many network requests were issued. -/
structure CacheResult where
  result : Except String String
  store : Store
  networkCalls : Nat

/-- The network half of `fetchTextCached` (everything after the freshness
short-circuit): conditional headers from stored validators, then the
304 / non-ok / success branches exactly as in the source. -/
def fetchTextCachedGo (fetchFn : FetchFn) (now : Int) (url : String)
    (ttlMs : Int) (store : Store) (cached : Option CachedText) : CacheResult :=
  let inm := cached.bind (·.etag)
  let ims := cached.bind (·.lastModified)
  match fetchFn url inm ims with
  | .error e => ⟨.error e, store, 1⟩
  | .ok res =>
    match cached with
    | some c =>
      if res.status = 304 then
        let updated : CachedText :=
          { c with
            etag := match res.etag with | some e => some e | none => c.etag,
            lastModified := match res.lastModified with | some l => some l | none => c.lastModified,
            fetchedAt := now, ttlMs := ttlMs }
        ⟨.ok c.body, storeSet store (cacheKey url) updated, 1⟩
      else if !res.ok then
        ⟨.ok c.body, store, 1⟩
      else
        let record : CachedText :=
          { url := url, body := res.body, etag := res.etag,
            lastModified := res.lastModified, fetchedAt := now, ttlMs := ttlMs }
        ⟨.ok res.body, storeSet store (cacheKey url) record, 1⟩
    | none =>
      if !res.ok then
        ⟨.error ("HTTP " ++ toString res.status ++ " fetching " ++ url), store, 1⟩
      else
        let record : CachedText :=
          { url := url, body := res.body, etag := res.etag,
            lastModified := res.lastModified, fetchedAt := now, ttlMs := ttlMs }
        ⟨.ok res.body, storeSet store (cacheKey url) record, 1⟩

/-- `fetchTextCached` from `tleCache.ts` (source defaults: `ttlMs` six
hours, `revalidate := true`).  A fresh entry with `revalidate` off is
served with zero network access; otherwise `fetchTextCachedGo` runs. -/
def fetchTextCached (fetchFn : FetchFn) (now : Int) (url : String)
    (ttlMs : Int) (revalidate : Bool) (store : Store) : CacheResult :=
  match storeGet store (cacheKey url) with
  | some c =>
    if decide (now - c.fetchedAt < c.ttlMs) && !revalidate then
      ⟨.ok c.body, store, 0⟩
    else
      fetchTextCachedGo fetchFn now url ttlMs store (some c)
  | none => fetchTextCachedGo fetchFn now url ttlMs store none

/-! ## `goes.ts` model (current version of the file)

Injected collaborators (the DI points of the source): the fetch strategy,
the image loader, JS `Date.parse` (used only by `parseHttpDate`), and the
current instant `Date.now`.  Images carry the four dimension fields the
source reads. -/

structure Img where
  naturalWidth : Int
  naturalHeight : Int
  width : Int
  height : Int
deriving DecidableEq, Repr

abbrev ImageLoader := String → Except String Img

structure GoesEnv where
  fetchImpl : FetchFn
  loadImage : ImageLoader
  dateParse : String → Option Int
  now : Int

inductive SatId where
  | G18 : SatId
  | G19 : SatId
deriving DecidableEq, Repr

structure ResolvedImage where
  url : String
  image : Img
  timestamp : Option Int
deriving DecidableEq, Repr

def GOES_CDN_BASE : String := "https://cdn.star.nesdis.noaa.gov"

/-- Directory-listing URL of `makeGoesNImageProvider`. -/
def goesNDirUrl (satName : String) : String :=
  GOES_CDN_BASE ++ "/" ++ satName ++ "/ABI/FD/GEOCOLOR/"

/-- `new RegExp(`(\d{11,})_${satId}-ABI-FD-GEOCOLOR-1808x1808\.jpg`, 'g')`. -/
def goesNFileRegex (satName : String) : RE :=
  seqs [.grp 1 (.seq (repN 11 digitRe) (.starG digitRe)), lit '_', strRe satName,
        strRe "-ABI-FD-GEOCOLOR-1808x1808", lit '.', strRe "jpg"]

/-- `matches.sort((a,b) => b[1].localeCompare(a[1]))` followed by `[0]`:
the first match whose capture is lexicographically greatest (JS sort is
stable; `localeCompare` on pure digit strings is code-unit order).
Returns the whole matched filename and the captured stamp. -/
def pickLatest (ms : List (String × Caps)) : Option (String × String) :=
  ms.foldl (fun acc m =>
    let stamp := (capGet m.2 1).getD ""
    match acc with
    | none => some (m.1, stamp)
    | some (bf, bs) => if bs < stamp then some (m.1, stamp) else some (bf, bs)) none

/-- `makeGoesNImageProvider(satId).getRecentImage` from the current
`goes.ts`: fetch the directory listing, scan it for timestamped
1808x1808 filenames, pick the most recent, load it.  A non-ok response or
an empty match list yields `null`; a rejected fetch or image load is NOT
caught here and propagates (`Except.error`). -/
def getRecentImage (env : GoesEnv) (satName : String) :
    Except String (Option ResolvedImage) := do
  let res ← env.fetchImpl (goesNDirUrl satName) none none
  if res.ok then
    let html := res.body
    let ms := matchAll (goesNFileRegex satName) html
    match pickLatest ms with
    | some (filename, stamp) =>
      let url := goesNDirUrl satName ++ filename
      let ts := parseGoesNFilenameTimestamp stamp
      let img ← env.loadImage url
      return some { url := url, image := img, timestamp := ts }
    | none => return none
  else
    return none

/-- `SAT_IMAGE_PROVIDERS`. -/
def satProviderName : SatId → String
  | .G18 => "GOES18"
  | .G19 => "GOES19"

/-- `resolveLatestImage` (current version): dispatch to the provider. -/
def resolveLatestImage (env : GoesEnv) (sat : SatId) :
    Except String (Option ResolvedImage) :=
  getRecentImage env (satProviderName sat)

structure TLE where
  line1 : String
  line2 : String
deriving DecidableEq, Repr

structure TLEBySat where
  G18 : Option TLE
  G19 : Option TLE
deriving DecidableEq, Repr

/-- Stub TLE for GOES-18 (current `fetchGoesTLEsBySatId`). -/
def stubTleG18 : TLE :=
  ⟨"1 51850U 22021A   25225.49697635  .00000098  00000+0  00000+0 0  9996",
   "2 51850   0.0070 282.4274 0000607 300.8675 140.7832  1.00271626  3507"⟩

/-- Stub TLE for GOES-19 (current `fetchGoesTLEsBySatId`). -/
def stubTleG19 : TLE :=
  ⟨"1 60133U 24119A   25225.52405752 -.00000247  00000+0  00000+0 0  9998",
   "2 60133   0.0150  90.0040 0000708 157.4073 188.2598  1.00269356  3877"⟩

def stubTLEs : TLEBySat := { G18 := some stubTleG18, G19 := some stubTleG19 }

def CELESTRAK_GOES_TLE_URL : String :=
  "https://celestrak.org/NORAD/elements/gp.php?GROUP=goes&FORMAT=tle"

/-- `name.toUpperCase()` (TLE name lines are ASCII). -/
def upperStr (s : String) : String := String.mk (s.data.map Char.toUpper)

/-- `[-\s]` (ASCII whitespace; TLE name lines are ASCII). -/
def dashWs : RE := .cls fun c => c = '-' || c = ' ' || c = '\t' || c = '\n' || c = '\r'

/-- `nameToSatId` from `goes.ts`: case-insensitive alias matching. -/
def nameToSatId (name : String) : Option SatId :=
  let n := upperStr name
  if reTest (seqs [.wordB, strRe "GOES", .optG dashWs, strRe "19", .wordB]) n
      || reTest (seqs [.wordB, strRe "GOES U", .wordB]) n then some .G19
  else if reTest (seqs [.wordB, strRe "GOES", .optG dashWs, strRe "18", .wordB]) n
      || reTest (seqs [.wordB, strRe "GOES T", .wordB]) n then some .G18
  else none

/-- Split a character list at every newline (the pieces, separators
dropped; JS `split` keeps empty pieces). -/
def splitNl : List Char → List (List Char)
  | [] => [[]]
  | c :: rest =>
    if c = '\n' then [] :: splitNl rest
    else
      match splitNl rest with
      | l :: ls => (c :: l) :: ls
      | [] => [[c]]

/-- Strip leading and trailing whitespace (JS `trim` on the ASCII TLE
lines). -/
def trimChars (l : List Char) : List Char :=
  (((l.dropWhile Char.isWhitespace).reverse).dropWhile Char.isWhitespace).reverse

/-- `txt.split(/\r?\n/).map(s => s.trim()).filter(Boolean)` (trimming also
removes a trailing `\r`, so splitting on `\n` alone is equivalent). -/
def splitTrimFilter (txt : String) : List String :=
  ((splitNl txt.data).map fun l => String.mk (trimChars l)).filter (· ≠ "")

/-- The TLE-group scan loop: three lines per satellite, first hit wins,
`continue` still advances by three lines. -/
def tleScan : List String → TLEBySat → TLEBySat
  | name :: l1 :: l2 :: rest, acc =>
    let acc2 :=
      match nameToSatId name with
      | some .G18 => if acc.G18.isSome then acc else { acc with G18 := some ⟨l1, l2⟩ }
      | some .G19 => if acc.G19.isSome then acc else { acc with G19 := some ⟨l1, l2⟩ }
      | none => acc
    tleScan rest acc2
  | _, acc => acc

/-- `fetchGoesTLEsBySatId` (current version): the module flag
`USE_REAL_TLE` is threaded as the `useRealTle` parameter; while it is
`false` the hard-coded stubs are returned with no cache/network access.
The real branch goes through `fetchTextCached` with a six-hour TTL and
`revalidate: false`.  Returns the result, the updated store and the number
of network requests made for the element-set URL. -/
def fetchGoesTLEsBySatId (useRealTle : Bool) (env : GoesEnv) (store : Store) :
    Except String TLEBySat × Store × Nat :=
  if !useRealTle then
    (.ok stubTLEs, store, 0)
  else
    let r := fetchTextCached env.fetchImpl env.now CELESTRAK_GOES_TLE_URL
      (6 * 60 * 60 * 1000) false store
    match r.result with
    | .ok txt => (.ok (tleScan (splitTrimFilter txt) ⟨none, none⟩), r.store, r.networkCalls)
    | .error e => (.error e, r.store, r.networkCalls)

/-! ## Orbit propagation and frame assembly

`satellite.js` is an external npm dependency whose code is not in the
repository; `propagateToEcefMeters` only composes its `twoline2satrec`,
`propagate`, `gstime` and `eciToEcf`.  Those four are therefore a
parameter (`SatLib`), exactly the dependency-injection shape the repo's own
tests use by mocking the module; `twoline2satrec ∘ propagate` is collapsed
into one `propagate : TLE → instant → Option position` (ECI km), `none`
standing for the model returning no position. -/

@[ext]
structure Vec3R where
  x : ℝ
  y : ℝ
  z : ℝ

structure SatLib where
  propagate : TLE → Int → Option Vec3R
  gstime : Int → ℝ
  eciToEcf : Vec3R → ℝ → Vec3R

/-- `propagateToEcefMeters` from `goes.ts`: propagate, throw if the model
reports no position, rotate by GMST into ECEF, convert km to meters. -/
noncomputable def propagateToEcefMeters (lib : SatLib) (tle : TLE) (atMs : Int) :
    Except String Vec3R :=
  match lib.propagate tle atMs with
  | none => .error "SGP4 returned no position"
  | some position =>
    let gmst := lib.gstime atMs
    let ecf := lib.eciToEcf position gmst
    .ok ⟨ecf.x * 1000, ecf.y * 1000, ecf.z * 1000⟩

/-- Modelled from the spec: satellite.js `eciToEcf` — "Compute Greenwich
Mean Sidereal Time for `atInstant` and rotate the ECI position about the
polar axis into the Earth-fixed (ECEF) frame", the rotation carrying +X
into +Y at GMST = π/2; the repository's own test mock of satellite.js
implements exactly this Z-axis rotation. -/
noncomputable def eciToEcfRotZ (eci : Vec3R) (gmst : ℝ) : Vec3R :=
  ⟨eci.x * Real.cos gmst - eci.y * Real.sin gmst,
   eci.x * Real.sin gmst + eci.y * Real.cos gmst,
   eci.z⟩

/-- The satellite.js mock of the repository's tests: a fixed ECI position,
a fixed GMST, and the Z-axis rotation. -/
noncomputable def mockSatLib (eci : Vec3R) (gmst : ℝ) : SatLib :=
  { propagate := fun _ _ => some eci
    gstime := fun _ => gmst
    eciToEcf := eciToEcfRotZ }

/-- `FULL_DISK_FOV_DEG` (current version of `goes.ts`). -/
noncomputable def FULL_DISK_FOV_DEG : ℝ := 17.33

structure SatFrame where
  sat : SatId
  band : String
  imageUrl : String
  image : Img
  width : Int
  height : Int
  aspect : ℝ
  timestamp : Int
  satEcef_m : Vec3R
  fovDeg : ℝ

/-- `buildFrame` from the current `goes.ts`.  The expected-FOV computation
in the source is only logged, never used; it is omitted here.  `width` and
`height` use natural dimensions when nonzero (JS `||` on numbers). -/
noncomputable def buildFrame (lib : SatLib) (sat : SatId) (url : String) (image : Img)
    (timestamp : Int) (tle : TLE) : Except String SatFrame :=
  match propagateToEcefMeters lib tle timestamp with
  | .error e => .error e
  | .ok ecef =>
    let w := if image.naturalWidth ≠ 0 then image.naturalWidth else image.width
    let h := if image.naturalHeight ≠ 0 then image.naturalHeight else image.height
    .ok { sat := sat, band := "GEOCOLOR", imageUrl := url, image := image,
          width := w, height := h, aspect := (w : ℝ) / (h : ℝ),
          timestamp := timestamp, satEcef_m := ecef, fovDeg := FULL_DISK_FOV_DEG }

/-- The timestamp-validity substitution in `fetchLatestGoesFrames`:
`ts instanceof Date && !isNaN(ts.getTime()) ? ts : new Date()`; an absent
or invalid timestamp is `none`. -/
def validOrNow (now : Int) (ts : Option Int) : Int :=
  match ts with
  | some t => t
  | none => now

/-- `fetchLatestGoesFrames` from the current `goes.ts`: resolve both
satellites' images (`Promise.all`: a rejection rejects the whole call),
fetch TLEs, then build a frame for each satellite that has both an image
and a TLE; `buildFrame` exceptions (SGP4 failure) also reject the whole
call.  Returns the result, the updated TLE cache store and the number of
element-set network requests. -/
noncomputable def fetchLatestGoesFrames (env : GoesEnv) (useRealTle : Bool) (lib : SatLib)
    (store : Store) : Except String (List SatFrame) × Store × Nat :=
  match resolveLatestImage env .G19 with
  | .error e => (.error e, store, 0)
  | .ok g19 =>
  match resolveLatestImage env .G18 with
  | .error e => (.error e, store, 0)
  | .ok g18 =>
  match fetchGoesTLEsBySatId useRealTle env store with
  | (.error e, st2, n) => (.error e, st2, n)
  | (.ok tleBySat, st2, n) =>
    let part19 : Except String (List SatFrame) :=
      match g19, tleBySat.G19 with
      | some r, some tle =>
        match buildFrame lib .G19 r.url r.image (validOrNow env.now r.timestamp) tle with
        | .error e => .error e
        | .ok f => .ok [f]
      | _, _ => .ok []
    match part19 with
    | .error e => (.error e, st2, n)
    | .ok fs19 =>
      let part18 : Except String (List SatFrame) :=
        match g18, tleBySat.G18 with
        | some r, some tle =>
          match buildFrame lib .G18 r.url r.image (validOrNow env.now r.timestamp) tle with
          | .error e => .error e
          | .ok f => .ok [f]
        | _, _ => .ok []
      match part18 with
      | .error e => (.error e, st2, n)
      | .ok fs18 => (.ok (fs19 ++ fs18), st2, n)

/-! ## The earlier candidate-list resolver

The second version of `goes.ts` bundled in the source file resolves images
by probing a fixed candidate list, swallowing per-candidate exceptions. -/

/-- `IMAGE_CANDIDATES`. -/
def IMAGE_CANDIDATES : SatId → List String
  | .G19 => [GOES_CDN_BASE ++ "/GOES19/ABI/FD/GEOCOLOR/1808x1808.jpg",
             GOES_CDN_BASE ++ "/GOES19/ABI/FD/GEOCOLOR/1080x1080.jpg",
             GOES_CDN_BASE ++ "/GOES19/ABI/FD/GEOCOLOR/latest.jpg"]
  | .G18 => [GOES_CDN_BASE ++ "/GOES18/ABI/FD/GEOCOLOR/1808x1808.jpg",
             GOES_CDN_BASE ++ "/GOES18/ABI/FD/GEOCOLOR/1080x1080.jpg",
             GOES_CDN_BASE ++ "/GOES18/ABI/FD/GEOCOLOR/latest.jpg"]

/-- `parseHttpDate` from `goes.ts`; JS `Date.parse` is a host built-in,
threaded through the environment (its finiteness check is folded into the
`Option`). -/
def parseHttpDate (env : GoesEnv) (v : Option String) : Option Int :=
  match v with
  | none => none
  | some s => env.dateParse s

/-- The body of one candidate iteration of the earlier `resolveLatestImage`
(inside its `try`): non-ok responses mean `continue` (modelled `.ok none`),
the timestamp falls back from the final URL to `Last-Modified` to now, and
fetch or image-load rejections surface as `.error` to be caught by the
loop. -/
def resolveCandidate (env : GoesEnv) (candidate : String) :
    Except String (Option ResolvedImage) := do
  let res ← env.fetchImpl candidate none none
  if !res.ok then
    return none
  else
    let finalUrl := if res.finalUrl ≠ "" then res.finalUrl else candidate
    let ts := (parseTimestampFromUrl finalUrl).getD
      ((parseHttpDate env res.lastModified).getD env.now)
    let img ← env.loadImage finalUrl
    return some { url := finalUrl, image := img, timestamp := some ts }

/-- The candidate loop of the earlier `resolveLatestImage`: first success
wins, any per-candidate exception is swallowed (`catch { /* try next */ }`),
exhaustion yields `null`.  The function as a whole cannot throw. -/
def resolveCandidatesGo (env : GoesEnv) : List String → Option ResolvedImage
  | [] => none
  | c :: rest =>
    match resolveCandidate env c with
    | .ok (some r) => some r
    | .ok none => resolveCandidatesGo env rest
    | .error _ => resolveCandidatesGo env rest

/-- The earlier, candidate-list `resolveLatestImage`. -/
def resolveLatestImageV2 (env : GoesEnv) (sat : SatId) : Option ResolvedImage :=
  resolveCandidatesGo env (IMAGE_CANDIDATES sat)

/-! ## `projectorMaterial.ts` model (multi-projector fragment shader)

The GLSL fragment shader is embedded as a pure function over ℝ: vectors
and matrices componentwise, `texture2D` as an abstract sampling function
`Vec2R → Vec4R` per source (color channels x,y,z = r,g,b and w = a).
`inverse(mat4)` is the standard adjugate/determinant formula. -/

structure Vec2R where
  x : ℝ
  y : ℝ

@[ext]
structure Vec4R where
  x : ℝ
  y : ℝ
  z : ℝ
  w : ℝ

def dot3 (a b : Vec3R) : ℝ := a.x * b.x + a.y * b.y + a.z * b.z

noncomputable def sub3 (a b : Vec3R) : Vec3R := ⟨a.x - b.x, a.y - b.y, a.z - b.z⟩

noncomputable def add3 (a b : Vec3R) : Vec3R := ⟨a.x + b.x, a.y + b.y, a.z + b.z⟩

noncomputable def smul3 (t : ℝ) (v : Vec3R) : Vec3R := ⟨t * v.x, t * v.y, t * v.z⟩

/-- GLSL `normalize`. -/
noncomputable def normalize3 (v : Vec3R) : Vec3R :=
  let len := Real.sqrt (dot3 v v)
  ⟨v.x / len, v.y / len, v.z / len⟩

/-- GLSL `clamp`. -/
noncomputable def clampR (x lo hi : ℝ) : ℝ := min (max x lo) hi

/-- GLSL `smoothstep`. -/
noncomputable def smoothstepR (e0 e1 x : ℝ) : ℝ :=
  let t := clampR ((x - e0) / (e1 - e0)) 0 1
  t * t * (3 - 2 * t)

/-- GLSL `mix(a, b, t) = a*(1-t) + b*t`, componentwise. -/
noncomputable def mix3 (a b : Vec3R) (t : ℝ) : Vec3R :=
  ⟨a.x * (1 - t) + b.x * t, a.y * (1 - t) + b.y * t, a.z * (1 - t) + b.z * t⟩

/-- A 4×4 real matrix, entry `mRC` = row R, column C (the abstract linear
map of the GLSL `mat4`). -/
structure Mat4 where
  m00 : ℝ
  m01 : ℝ
  m02 : ℝ
  m03 : ℝ
  m10 : ℝ
  m11 : ℝ
  m12 : ℝ
  m13 : ℝ
  m20 : ℝ
  m21 : ℝ
  m22 : ℝ
  m23 : ℝ
  m30 : ℝ
  m31 : ℝ
  m32 : ℝ
  m33 : ℝ

/-- GLSL `M * v`. -/
noncomputable def mulVec4 (M : Mat4) (v : Vec4R) : Vec4R :=
  ⟨M.m00 * v.x + M.m01 * v.y + M.m02 * v.z + M.m03 * v.w,
   M.m10 * v.x + M.m11 * v.y + M.m12 * v.z + M.m13 * v.w,
   M.m20 * v.x + M.m21 * v.y + M.m22 * v.z + M.m23 * v.w,
   M.m30 * v.x + M.m31 * v.y + M.m32 * v.z + M.m33 * v.w⟩

/-- GLSL `inverse(mat4)`: adjugate over determinant by 2×2 subfactors. -/
noncomputable def inverse4 (M : Mat4) : Mat4 :=
  let s0 := M.m00 * M.m11 - M.m10 * M.m01
  let s1 := M.m00 * M.m12 - M.m10 * M.m02
  let s2 := M.m00 * M.m13 - M.m10 * M.m03
  let s3 := M.m01 * M.m12 - M.m11 * M.m02
  let s4 := M.m01 * M.m13 - M.m11 * M.m03
  let s5 := M.m02 * M.m13 - M.m12 * M.m03
  let c5 := M.m22 * M.m33 - M.m32 * M.m23
  let c4 := M.m21 * M.m33 - M.m31 * M.m23
  let c3 := M.m21 * M.m32 - M.m31 * M.m22
  let c2 := M.m20 * M.m33 - M.m30 * M.m23
  let c1 := M.m20 * M.m32 - M.m30 * M.m22
  let c0 := M.m20 * M.m31 - M.m30 * M.m21
  let det := s0 * c5 - s1 * c4 + s2 * c3 + s3 * c2 - s4 * c1 + s5 * c0
  let i := 1 / det
  ⟨(M.m11 * c5 - M.m12 * c4 + M.m13 * c3) * i,
   (-M.m01 * c5 + M.m02 * c4 - M.m03 * c3) * i,
   (M.m31 * s5 - M.m32 * s4 + M.m33 * s3) * i,
   (-M.m21 * s5 + M.m22 * s4 - M.m23 * s3) * i,
   (-M.m10 * c5 + M.m12 * c2 - M.m13 * c1) * i,
   (M.m00 * c5 - M.m02 * c2 + M.m03 * c1) * i,
   (-M.m30 * s5 + M.m32 * s2 - M.m33 * s1) * i,
   (M.m20 * s5 - M.m22 * s2 + M.m23 * s1) * i,
   (M.m10 * c4 - M.m11 * c2 + M.m13 * c0) * i,
   (-M.m00 * c4 + M.m01 * c2 - M.m03 * c0) * i,
   (M.m30 * s4 - M.m31 * s2 + M.m33 * s0) * i,
   (-M.m20 * s4 + M.m21 * s2 - M.m23 * s0) * i,
   (-M.m10 * c3 + M.m11 * c1 - M.m12 * c0) * i,
   (M.m00 * c3 - M.m01 * c1 + M.m02 * c0) * i,
   (-M.m30 * s3 + M.m31 * s1 - M.m32 * s0) * i,
   (M.m20 * s3 - M.m21 * s1 + M.m22 * s0) * i⟩

/-- One projector's uniforms: `texN`, `cameraMatrix[i]`,
`projectorCameraPosition[i]`, `cameraProjection[i]`. -/
structure ProjSource where
  tex : Vec2R → Vec4R
  cameraMatrix : Mat4
  cameraPosition : Vec3R
  cameraProjection : Mat4

/-- Shader constant `baseColor`. -/
noncomputable def baseColor : Vec3R := ⟨0.1, 0.3, 0.7⟩

/-- Shader constant `lightDir = normalize(vec3(0.5, 1.0, 0.8))`. -/
noncomputable def lightDir : Vec3R := normalize3 ⟨0.5, 1.0, 0.8⟩

/-- `facing = dot(normal, toCamera)` of `projectColor`. -/
noncomputable def facingOf (P : Vec3R) (s : ProjSource) : ℝ :=
  dot3 (normalize3 P) (normalize3 (sub3 s.cameraPosition P))

/-- The pre-division clip-space point of `projectColor`:
`cameraProjection * vec4((inverse(cameraMatrix) * vec4(dir, 0)).xyz, 1)`. -/
noncomputable def ndcRawOf (P : Vec3R) (s : ProjSource) : Vec4R :=
  let dir := normalize3 (sub3 P s.cameraPosition)
  let camSpace := mulVec4 (inverse4 s.cameraMatrix) ⟨dir.x, dir.y, dir.z, 0⟩
  mulVec4 s.cameraProjection ⟨camSpace.x, camSpace.y, camSpace.z, 1⟩

/-- `uv = (ndc / ndc.w).xy * 0.5 + 0.5`. -/
noncomputable def uvOf (P : Vec3R) (s : ProjSource) : Vec2R :=
  let ndc := ndcRawOf P s
  ⟨ndc.x / ndc.w * 0.5 + 0.5, ndc.y / ndc.w * 0.5 + 0.5⟩

/-- The border fade: `smoothstep` within 10% of each of the four edges,
multiplied together. -/
noncomputable def fadeOf (uv : Vec2R) : ℝ :=
  let edge := (0.1 : ℝ)
  smoothstepR 0 edge uv.x * smoothstepR 0 edge uv.y *
    smoothstepR 0 edge (1 - uv.x) * smoothstepR 0 edge (1 - uv.y)

/-- `projectColor` from the multi-projector fragment shader: facing test,
homogeneous-w test, unit-square uv test, border fade; the sampled color's
alpha is scaled by `fade * facing` and rides as the source's weight. -/
noncomputable def projectColor (P : Vec3R) (s : ProjSource) : Vec4R :=
  if 0.01 < facingOf P s then
    let ndc := ndcRawOf P s
    if ndc.w = 0 then ⟨0, 0, 0, 0⟩
    else
      let uv := uvOf P s
      if uv.x < 0 ∨ 1 < uv.x ∨ uv.y < 0 ∨ 1 < uv.y then ⟨0, 0, 0, 0⟩
      else
        let pc := s.tex uv
        ⟨pc.x, pc.y, pc.z, pc.w * (fadeOf uv * facingOf P s)⟩
  else ⟨0, 0, 0, 0⟩

/-- `main`'s accumulated `totalAlpha`: the guarded sum of the (at most
four) per-source weights. -/
noncomputable def alphaSum (n : Int) (s0 s1 s2 s3 : ProjSource) (P : Vec3R) : ℝ :=
  (if 0 < n then (projectColor P s0).w else 0) +
    (if 1 < n then (projectColor P s1).w else 0) +
    (if 2 < n then (projectColor P s2).w else 0) +
    (if 3 < n then (projectColor P s3).w else 0)

/-- `main`'s accumulated `color.rgb`: the guarded sum of color·weight. -/
noncomputable def colorSum (n : Int) (s0 s1 s2 s3 : ProjSource) (P : Vec3R) : Vec3R :=
  let contrib := fun (s : ProjSource) =>
    let c := projectColor P s
    smul3 c.w ⟨c.x, c.y, c.z⟩
  add3 (add3 (add3 (if 0 < n then contrib s0 else ⟨0, 0, 0⟩)
                   (if 1 < n then contrib s1 else ⟨0, 0, 0⟩))
             (if 2 < n then contrib s2 else ⟨0, 0, 0⟩))
       (if 3 < n then contrib s3 else ⟨0, 0, 0⟩)

/-- The Lambertian fallback `base = baseColor * (0.5 + 0.5*max(dot(N,L),0))`. -/
noncomputable def baseShade (P : Vec3R) : Vec3R :=
  let diffuse := 0.5 + 0.5 * max (dot3 (normalize3 P) lightDir) 0
  smul3 diffuse baseColor

/-- `main` of the multi-projector fragment shader: accumulate up to four
sources, then either the base-shaded fallback (no weight) or the
normalized weighted average mixed over the base. -/
noncomputable def shaderMain (n : Int) (s0 s1 s2 s3 : ProjSource) (P : Vec3R) : Vec4R :=
  let total := alphaSum n s0 s1 s2 s3 P
  let base := baseShade P
  if 0 < total then
    let avg := smul3 (1 / total) (colorSum n s0 s1 s2 s3 P)
    let m := mix3 base avg (clampR total 0 1)
    ⟨m.x, m.y, m.z, 1⟩
  else
    ⟨base.x, base.y, base.z, 1⟩

/-! ## Shared helper lemmas -/

theorem storeGet_storeSet_self (st : Store) (k : String) (v : CachedText) :
    storeGet (storeSet st k v) k = some v := by
  simp [storeGet, storeSet]

/-! ## Claim C6 -/

/-- C6: `parseTimestampFromUrl` supports the three documented URL shapes
with all components interpreted as UTC — `..._20250812-2310.jpg` parses to
2025-08-12T23:10:00Z, `.../GOES18-20250812231045_full.jpg` to
2025-08-12T23:10:45Z, and `.../2025/225/x-235959.jpg` to
2025-08-13T23:59:59Z via `dateFromDayOfYearUTC`, which handles leap years
(2024 day 60 is February 29); any string matching none of the supported
patterns parses to `null`. -/
theorem C6_timestamp_parsing :
    parseTimestampFromUrl "..._20250812-2310.jpg" = some (utcMillis 2025 8 12 23 10 0) ∧
    parseTimestampFromUrl ".../GOES18-20250812231045_full.jpg" =
      some (utcMillis 2025 8 12 23 10 45) ∧
    parseTimestampFromUrl ".../2025/225/x-235959.jpg" =
      some (utcMillis 2025 8 13 23 59 59) ∧
    dateFromDayOfYearUTC 2024 60 = (2024, 2, 29) ∧
    (∀ url : String, reSearch re1a url = none → reSearch re1b url = none →
      reSearch re2 url = none → reSearch re3 url = none →
      parseTimestampFromUrl url = none) := by
  refine ⟨by decide, by decide, by decide, by decide, ?_⟩
  intro url h1a h1b h2 h3
  simp only [parseTimestampFromUrl, h1a, h1b, h2, h3]

/-- Witness for C6 at the concrete unparseable URL of the repo's tests. -/
theorem C6_timestamp_parsing_witness :
    parseTimestampFromUrl "no-time-here.jpg" = none :=
  C6_timestamp_parsing.2.2.2.2 "no-time-here.jpg" (by decide) (by decide) (by decide) (by decide)

/-! ## Claim C2 -/

/-- C2: when the fetch strategy returns a non-2xx, non-304 response,
`fetchTextCached` serves any cached body (of any age) without throwing,
and with no cached entry it throws an error naming the HTTP status and
the URL. -/
theorem C2_stale_serve_or_status_error (fetchFn : FetchFn) (now : Int) (url : String)
    (ttl : Int) (reval : Bool) (store : Store) (resp : HttpResponse)
    (hf : ∀ a b, fetchFn url a b = Except.ok resp)
    (h2xx : ¬(200 ≤ resp.status ∧ resp.status < 300)) (h304 : resp.status ≠ 304) :
    (∀ c, storeGet store (cacheKey url) = some c →
      (fetchTextCached fetchFn now url ttl reval store).result = .ok c.body) ∧
    (storeGet store (cacheKey url) = none →
      (fetchTextCached fetchFn now url ttl reval store).result =
        .error ("HTTP " ++ toString resp.status ++ " fetching " ++ url)) := by
  constructor
  · intro c hc
    unfold fetchTextCached
    rw [hc]
    by_cases hfr : (decide (now - c.fetchedAt < c.ttlMs) && !reval) = true
    · simp [hfr]
    · simp only [hfr, if_false, Bool.false_eq_true]
      unfold fetchTextCachedGo
      simp only [Option.bind, hf]
      rw [if_neg h304]
      have hok : resp.ok = false := by
        simp [HttpResponse.ok, decide_eq_false_iff_not, h2xx]
      simp [hok]
  · intro hc
    unfold fetchTextCached
    rw [hc]
    unfold fetchTextCachedGo
    simp only [Option.bind, hf]
    have hok : resp.ok = false := by
      simp [HttpResponse.ok, decide_eq_false_iff_not, h2xx]
    simp [hok]

def resp500 : HttpResponse := ⟨500, "", "", none, none⟩

def fetch500 : FetchFn := fun _ _ _ => .ok resp500

def entryU : CachedText := ⟨"u", "BODY", none, none, 0, 1000⟩

def storeU : Store := storeSet emptyStore (cacheKey "u") entryU

/-- Witness for C2: an always-500 strategy serves the stale body when an
entry exists and throws the status-and-URL error when none does. -/
theorem C2_stale_serve_or_status_error_witness :
    (fetchTextCached fetch500 5000 "u" 1000 true storeU).result = .ok "BODY" ∧
    (fetchTextCached fetch500 5000 "u" 1000 true emptyStore).result =
      .error ("HTTP " ++ toString (500 : Int) ++ " fetching " ++ "u") := by
  constructor
  · exact (C2_stale_serve_or_status_error fetch500 5000 "u" 1000 true storeU resp500
      (fun _ _ => rfl) (by decide) (by decide)).1 entryU (by decide)
  · exact (C2_stale_serve_or_status_error fetch500 5000 "u" 1000 true emptyStore resp500
      (fun _ _ => rfl) (by decide) (by decide)).2 (by decide)

/-! ## Claim C3 -/

/-- C3: a cached entry younger than its TTL with `revalidate` off is
returned with zero network access, and fetching the same URL twice with
`revalidate=false` inside the TTL window makes zero network calls on the
second call and returns the identical body. -/
theorem C3_fresh_cache_zero_network :
    (∀ (f : FetchFn) (now : Int) (url : String) (ttl : Int) (store : Store) (c : CachedText),
      storeGet store (cacheKey url) = some c →
      now - c.fetchedAt < c.ttlMs →
      fetchTextCached f now url ttl false store = ⟨.ok c.body, store, 0⟩) ∧
    (∀ (f g : FetchFn) (now1 now2 : Int) (url : String) (ttl : Int) (store0 : Store)
      (resp : HttpResponse),
      storeGet store0 (cacheKey url) = none →
      (∀ a b, f url a b = Except.ok resp) →
      200 ≤ resp.status → resp.status < 300 →
      now2 - now1 < ttl →
      (fetchTextCached f now1 url ttl false store0).result = .ok resp.body ∧
      (fetchTextCached f now1 url ttl false store0).networkCalls = 1 ∧
      fetchTextCached g now2 url ttl false (fetchTextCached f now1 url ttl false store0).store =
        ⟨.ok resp.body, (fetchTextCached f now1 url ttl false store0).store, 0⟩) := by
  have fresh : ∀ (f : FetchFn) (now : Int) (url : String) (ttl : Int) (store : Store)
      (c : CachedText), storeGet store (cacheKey url) = some c →
      now - c.fetchedAt < c.ttlMs →
      fetchTextCached f now url ttl false store = ⟨.ok c.body, store, 0⟩ := by
    intro f now url ttl store c hc hlt
    unfold fetchTextCached
    rw [hc]
    simp [hlt]
  refine ⟨fresh, ?_⟩
  intro f g now1 now2 url ttl store0 resp h0 hf h200 h300 hwin
  have hok : resp.ok = true := by
    simp [HttpResponse.ok]
    exact ⟨h200, h300⟩
  have h1 : fetchTextCached f now1 url ttl false store0 =
      ⟨.ok resp.body,
       storeSet store0 (cacheKey url)
         { url := url, body := resp.body, etag := resp.etag,
           lastModified := resp.lastModified, fetchedAt := now1, ttlMs := ttl },
       1⟩ := by
    unfold fetchTextCached
    rw [h0]
    unfold fetchTextCachedGo
    simp only [Option.bind, hf]
    simp [hok]
  refine ⟨by rw [h1], by rw [h1], ?_⟩
  rw [h1]
  exact fresh g now2 url ttl _ _ (storeGet_storeSet_self _ _ _) (by simpa using hwin)

def resp200 : HttpResponse := ⟨200, "TLEDATA", "", none, none⟩

def fetch200 : FetchFn := fun _ _ _ => .ok resp200

/-- Witness for C3: a fresh hit serves with zero network calls, and the
fill-then-hit pair returns the identical body with zero calls on the
second fetch. -/
theorem C3_fresh_cache_zero_network_witness :
    fetchTextCached fetch500 500 "u" 1000 false storeU = ⟨.ok "BODY", storeU, 0⟩ ∧
    ((fetchTextCached fetch200 0 "v" 1000 false emptyStore).result = .ok "TLEDATA" ∧
     (fetchTextCached fetch200 0 "v" 1000 false emptyStore).networkCalls = 1 ∧
     fetchTextCached fetch500 500 "v" 1000 false
         (fetchTextCached fetch200 0 "v" 1000 false emptyStore).store =
       ⟨.ok "TLEDATA", (fetchTextCached fetch200 0 "v" 1000 false emptyStore).store, 0⟩) := by
  constructor
  · exact C3_fresh_cache_zero_network.1 fetch500 500 "u" 1000 storeU entryU
      (by decide) (by decide)
  · exact C3_fresh_cache_zero_network.2 fetch200 fetch500 0 500 "v" 1000 emptyStore resp200
      (by decide) (fun _ _ => rfl) (by decide) (by decide) (by decide)

/-! ## Claim C4 -/

/-- C4: on a 304 response with a cached entry, `fetchTextCached` returns
the previously cached body (the response body is never read — it is
universally quantified here and absent from the conclusion), and persists
the record with the old body, validators refreshed from the response when
present, and `fetchedAt` advanced to now. -/
theorem C4_304_preserves_body (fetchFn : FetchFn) (now : Int) (url : String)
    (ttl : Int) (reval : Bool) (store : Store) (c : CachedText) (resp : HttpResponse)
    (hc : storeGet store (cacheKey url) = some c)
    (hf : fetchFn url c.etag c.lastModified = Except.ok resp)
    (h304 : resp.status = 304)
    (hrun : reval = true ∨ c.ttlMs ≤ now - c.fetchedAt) :
    fetchTextCached fetchFn now url ttl reval store =
      ⟨.ok c.body,
       storeSet store (cacheKey url)
         { url := c.url, body := c.body,
           etag := match resp.etag with | some e => some e | none => c.etag,
           lastModified := match resp.lastModified with
                           | some l => some l | none => c.lastModified,
           fetchedAt := now, ttlMs := ttl },
       1⟩ := by
  have hguard : (decide (now - c.fetchedAt < c.ttlMs) && !reval) = false := by
    rcases hrun with h | h
    · simp [h]
    · simp [not_lt.mpr h]
  unfold fetchTextCached
  rw [hc]
  simp only [hguard, Bool.false_eq_true, if_false]
  unfold fetchTextCachedGo
  simp only [Option.bind, hf]
  rw [if_pos h304]

def resp304 : HttpResponse := ⟨304, "SHOULD-NOT-BE-READ", "", some "etag-2", none⟩

def fetch304 : FetchFn := fun _ _ _ => .ok resp304

/-- Witness for C4: a 304 against a stale entry serves the old body and
persists it with the response ETag and a bumped `fetchedAt`. -/
theorem C4_304_preserves_body_witness :
    fetchTextCached fetch304 5000 "u" 2000 true storeU =
      ⟨.ok "BODY",
       storeSet storeU (cacheKey "u")
         { url := "u", body := "BODY", etag := some "etag-2", lastModified := none,
           fetchedAt := 5000, ttlMs := 2000 },
       1⟩ := by
  have h := C4_304_preserves_body fetch304 5000 "u" 2000 true storeU entryU resp304
    (by decide) rfl rfl (Or.inl rfl)
  simpa [entryU, resp304] using h

/-! ## Claim C7 -/

/-- C7: `propagateToEcefMeters` computes GMST for the instant, rotates the
ECI position about the polar (Z) axis into the Earth-fixed frame and
multiplies each coordinate by 1000; in particular a fixed ECI position
(42164, 0, 0) km gives ECEF (42164000, 0, 0) m at GMST = 0 and
(0, 42164000, 0) m at GMST = π/2 (the rotation carries +X into +Y).
satellite.js internals are modelled from the spec (`mockSatLib`,
matching the repository's test mock). -/
theorem C7_propagation_rotation :
    (∀ (eci : Vec3R) (gmst : ℝ) (tle : TLE) (t : Int),
      propagateToEcefMeters (mockSatLib eci gmst) tle t =
        .ok ⟨(eci.x * Real.cos gmst - eci.y * Real.sin gmst) * 1000,
             (eci.x * Real.sin gmst + eci.y * Real.cos gmst) * 1000,
             eci.z * 1000⟩) ∧
    (∀ (tle : TLE) (t : Int),
      propagateToEcefMeters (mockSatLib ⟨42164, 0, 0⟩ 0) tle t =
        .ok ⟨42164000, 0, 0⟩) ∧
    (∀ (tle : TLE) (t : Int),
      propagateToEcefMeters (mockSatLib ⟨42164, 0, 0⟩ (Real.pi / 2)) tle t =
        .ok ⟨0, 42164000, 0⟩) := by
  have hgen : ∀ (eci : Vec3R) (gmst : ℝ) (tle : TLE) (t : Int),
      propagateToEcefMeters (mockSatLib eci gmst) tle t =
        .ok ⟨(eci.x * Real.cos gmst - eci.y * Real.sin gmst) * 1000,
             (eci.x * Real.sin gmst + eci.y * Real.cos gmst) * 1000,
             eci.z * 1000⟩ := by
    intro eci gmst tle t
    rfl
  refine ⟨hgen, ?_, ?_⟩
  · intro tle t
    rw [hgen]
    simp only [Except.ok.injEq, Vec3R.mk.injEq]
    norm_num [Real.cos_zero, Real.sin_zero]
  · intro tle t
    rw [hgen]
    simp only [Except.ok.injEq, Vec3R.mk.injEq]
    norm_num [Real.cos_pi_div_two, Real.sin_pi_div_two]

/-! ## Claim C5 (corrected)

The claim quantifies over both resolution strategies.  It holds for the
candidate-list resolver (every per-candidate exception is swallowed), but
NOT for the directory-listing provider: there a thrown directory fetch
propagates to the caller instead of yielding `null`. -/

def envAllDown : GoesEnv :=
  { fetchImpl := fun _ _ _ => .error "network down"
    loadImage := fun _ => .error "no image"
    dateParse := fun _ => none
    now := 0 }

/-- Counterexample to C5: with a fetch strategy that throws, the
directory-listing provider propagates the exception — the result is an
error, not `null` (and not any successful value). -/
theorem C5_cx_provider_throws :
    getRecentImage envAllDown "GOES18" = .error "network down" := rfl

/-- C5 (amended): in the candidate-list resolver every per-candidate
exception or non-ok response is swallowed and the next candidate is tried,
with `null` only after exhaustion; the directory-listing provider yields
`null` on a non-ok directory response or when no filename matches — but a
thrown directory-listing fetch is not caught there (see the
counterexample). -/
theorem C5_amended_swallow_policy :
    (∀ (env : GoesEnv) (c : String) (rest : List String) (e : String),
      resolveCandidate env c = .error e →
      resolveCandidatesGo env (c :: rest) = resolveCandidatesGo env rest) ∧
    (∀ (env : GoesEnv) (c : String) (rest : List String),
      resolveCandidate env c = .ok none →
      resolveCandidatesGo env (c :: rest) = resolveCandidatesGo env rest) ∧
    (∀ (env : GoesEnv) (sat : SatId),
      (∀ c ∈ IMAGE_CANDIDATES sat, ∀ r, resolveCandidate env c ≠ .ok (some r)) →
      resolveLatestImageV2 env sat = none) ∧
    (∀ (env : GoesEnv) (satName : String) (resp : HttpResponse),
      env.fetchImpl (goesNDirUrl satName) none none = .ok resp →
      resp.ok = false →
      getRecentImage env satName = .ok none) ∧
    (∀ (env : GoesEnv) (satName : String) (resp : HttpResponse),
      env.fetchImpl (goesNDirUrl satName) none none = .ok resp →
      resp.ok = true →
      matchAll (goesNFileRegex satName) resp.body = [] →
      getRecentImage env satName = .ok none) := by
  have hgo : ∀ (env : GoesEnv) (l : List String),
      (∀ c ∈ l, ∀ r, resolveCandidate env c ≠ .ok (some r)) →
      resolveCandidatesGo env l = none := by
    intro env l
    induction l with
    | nil => intro _; rfl
    | cons c rest ih =>
      intro h
      have hc := h c (List.mem_cons_self c rest)
      unfold resolveCandidatesGo
      cases hres : resolveCandidate env c with
      | error e => exact ih fun x hx => h x (List.mem_cons_of_mem c hx)
      | ok v =>
        cases v with
        | none => exact ih fun x hx => h x (List.mem_cons_of_mem c hx)
        | some r => exact absurd hres (hc r)
  refine ⟨?_, ?_, ?_, ?_, ?_⟩
  · intro env c rest e h
    simp only [resolveCandidatesGo, h]
  · intro env c rest h
    simp only [resolveCandidatesGo, h]
  · intro env sat h
    exact hgo env (IMAGE_CANDIDATES sat) h
  · intro env satName resp hf hnotok
    unfold getRecentImage
    rw [hf]
    simp only [bind, Except.bind]
    rw [hnotok]
    simp only [Bool.false_eq_true, if_false]
    rfl
  · intro env satName resp hf hok hmatch
    unfold getRecentImage
    rw [hf]
    simp only [bind, Except.bind]
    rw [hok, hmatch]
    simp only [pickLatest, List.foldl_nil, if_true]
    rfl

def env404 : GoesEnv :=
  { fetchImpl := fun _ _ _ => .ok ⟨404, "", "", none, none⟩
    loadImage := fun _ => .error "no image"
    dateParse := fun _ => none
    now := 0 }

def envEmptyDir : GoesEnv :=
  { fetchImpl := fun _ _ _ => .ok ⟨200, "<html>no files</html>", "", none, none⟩
    loadImage := fun _ => .error "no image"
    dateParse := fun _ => none
    now := 0 }

/-- Witness for the amended C5: a throwing candidate is skipped, a non-ok
candidate is skipped, candidate exhaustion yields null, a non-ok directory
response yields null, and a listing with no matching filename yields
null. -/
theorem C5_amended_swallow_policy_witness :
    resolveCandidatesGo envAllDown ["x"] = resolveCandidatesGo envAllDown [] ∧
    resolveCandidatesGo env404 ["x"] = resolveCandidatesGo env404 [] ∧
    resolveLatestImageV2 envAllDown .G18 = none ∧
    getRecentImage env404 "GOES18" = .ok none ∧
    getRecentImage envEmptyDir "GOES18" = .ok none := by
  refine ⟨?_, ?_, ?_, ?_, ?_⟩
  · exact C5_amended_swallow_policy.1 envAllDown "x" [] "network down" rfl
  · exact C5_amended_swallow_policy.2.1 env404 "x" [] rfl
  · exact C5_amended_swallow_policy.2.2.1 envAllDown .G18
      (by intro c hc r; simp [resolveCandidate, envAllDown, bind, Except.bind])
  · exact C5_amended_swallow_policy.2.2.2.1 env404 "GOES18" ⟨404, "", "", none, none⟩
      rfl (by decide)
  · exact C5_amended_swallow_policy.2.2.2.2 envEmptyDir "GOES18"
      ⟨200, "<html>no files</html>", "", none, none⟩ rfl (by decide) rfl

/-! ## Claim C1 (corrected)

`fetchLatestGoesFrames` tolerates a satellite whose image resolution
completes without an image (non-ok directory response, no matching
filename, or missing TLE): that satellite is omitted and the other's
frames are returned.  But a THROWN directory-listing fetch — and likewise
an SGP4 no-position error in `buildFrame` — rejects the whole call, so the
claim as stated is false. -/

def g19Html : String :=
  "<a href=\"20252251910_GOES19-ABI-FD-GEOCOLOR-1808x1808.jpg\">latest</a>"

def imgC : Img := ⟨1808, 1808, 0, 0⟩

/-- GOES-19 directory listing resolves; the GOES-18 directory fetch
throws. -/
def envG18Down : GoesEnv :=
  { fetchImpl := fun url _ _ =>
      if url = goesNDirUrl "GOES19" then .ok ⟨200, g19Html, "", none, none⟩
      else .error "network down"
    loadImage := fun _ => .ok imgC
    dateParse := fun _ => none
    now := 12345 }

noncomputable def stubLib : SatLib :=
  { propagate := fun _ _ => some ⟨42164, 0, 0⟩
    gstime := fun _ => 0
    eciToEcf := fun e _ => e }

/-- Counterexample to C1: GOES-19 resolves successfully, yet because the
GOES-18 directory-listing fetch throws, the whole call rejects instead of
returning GOES-19's frame. -/
theorem C1_cx_throw_rejects_all :
    (fetchLatestGoesFrames envG18Down false stubLib emptyStore).1 =
      .error "network down" := rfl

/-- The element set `fetchGoesTLEsBySatId` associates with a satellite
(`tleBySat.G18` / `tleBySat.G19` in the source). -/
def tleFor (tles : TLEBySat) : SatId → Option TLE
  | .G18 => tles.G18
  | .G19 => tles.G19

/-- C1 (amended): in either TLE mode and for either satellite, when one
satellite's image resolution completes without an image (`null`, e.g. a
non-ok directory response or no matching filename) OR its element set is
missing from the fetched set, while the other satellite resolves
successfully with a propagatable element set, the call returns exactly the
other satellite's frame; satellites failing by a THROWN fetch or an SGP4
no-position error instead reject the whole call (see the
counterexample). -/
theorem C1_amended_partial_results :
    (∀ (env : GoesEnv) (useRealTle : Bool) (lib : SatLib) (store : Store)
      (tles : TLEBySat) (st2 : Store) (n : Nat) (r19 : ResolvedImage) (tle19 : TLE)
      (p : Vec3R) (g18opt : Option ResolvedImage),
      fetchGoesTLEsBySatId useRealTle env store = (.ok tles, st2, n) →
      resolveLatestImage env .G19 = .ok (some r19) →
      resolveLatestImage env .G18 = .ok g18opt →
      tleFor tles .G19 = some tle19 →
      (g18opt = none ∨ tleFor tles .G18 = none) →
      lib.propagate tle19 (validOrNow env.now r19.timestamp) = some p →
      ∃ f : SatFrame, (fetchLatestGoesFrames env useRealTle lib store).1 = .ok [f] ∧
        f.sat = SatId.G19 ∧ f.imageUrl = r19.url) ∧
    (∀ (env : GoesEnv) (useRealTle : Bool) (lib : SatLib) (store : Store)
      (tles : TLEBySat) (st2 : Store) (n : Nat) (r18 : ResolvedImage) (tle18 : TLE)
      (p : Vec3R) (g19opt : Option ResolvedImage),
      fetchGoesTLEsBySatId useRealTle env store = (.ok tles, st2, n) →
      resolveLatestImage env .G18 = .ok (some r18) →
      resolveLatestImage env .G19 = .ok g19opt →
      tleFor tles .G18 = some tle18 →
      (g19opt = none ∨ tleFor tles .G19 = none) →
      lib.propagate tle18 (validOrNow env.now r18.timestamp) = some p →
      ∃ f : SatFrame, (fetchLatestGoesFrames env useRealTle lib store).1 = .ok [f] ∧
        f.sat = SatId.G18 ∧ f.imageUrl = r18.url) := by
  constructor
  · intro env useRealTle lib store tles st2 n r19 tle19 p g18opt
      htr h19 h18 ht19 hdrop hp
    have ht19x : tles.G19 = some tle19 := ht19
    unfold fetchLatestGoesFrames
    rw [h19, h18, htr]
    simp only [ht19x]
    unfold buildFrame propagateToEcefMeters
    rw [hp]
    rcases hdrop with h | h
    · subst h
      exact ⟨_, rfl, rfl, rfl⟩
    · have hx : tles.G18 = none := h
      cases g18opt with
      | none => exact ⟨_, rfl, rfl, rfl⟩
      | some r18 =>
        rw [hx]
        exact ⟨_, rfl, rfl, rfl⟩
  · intro env useRealTle lib store tles st2 n r18 tle18 p g19opt
      htr h18 h19 ht18 hdrop hp
    have ht18x : tles.G18 = some tle18 := ht18
    unfold fetchLatestGoesFrames
    rw [h19, h18, htr]
    simp only [ht18x]
    unfold buildFrame propagateToEcefMeters
    rw [hp]
    rcases hdrop with h | h
    · subst h
      exact ⟨_, rfl, rfl, rfl⟩
    · have hx : tles.G19 = none := h
      cases g19opt with
      | none => exact ⟨_, rfl, rfl, rfl⟩
      | some r19 =>
        rw [hx]
        exact ⟨_, rfl, rfl, rfl⟩

/-- GOES-19 directory listing resolves; GOES-18's returns 404 (no throw). -/
def envG18404 : GoesEnv :=
  { fetchImpl := fun url _ _ =>
      if url = goesNDirUrl "GOES19" then .ok ⟨200, g19Html, "", none, none⟩
      else .ok ⟨404, "", "", none, none⟩
    loadImage := fun _ => .ok imgC
    dateParse := fun _ => none
    now := 12345 }

def r19c : ResolvedImage :=
  { url := goesNDirUrl "GOES19" ++ "20252251910_GOES19-ABI-FD-GEOCOLOR-1808x1808.jpg"
    image := imgC
    timestamp := some 1755112200000 }

def g18Html : String :=
  "<a href=\"20252251910_GOES18-ABI-FD-GEOCOLOR-1808x1808.jpg\">latest</a>"

/-- GOES-18 directory listing resolves; GOES-19's returns 404 (no throw). -/
def envG19404 : GoesEnv :=
  { fetchImpl := fun url _ _ =>
      if url = goesNDirUrl "GOES18" then .ok ⟨200, g18Html, "", none, none⟩
      else .ok ⟨404, "", "", none, none⟩
    loadImage := fun _ => .ok imgC
    dateParse := fun _ => none
    now := 12345 }

def r18c : ResolvedImage :=
  { url := goesNDirUrl "GOES18" ++ "20252251910_GOES18-ABI-FD-GEOCOLOR-1808x1808.jpg"
    image := imgC
    timestamp := some 1755112200000 }

/-- An element-set text carrying only the GOES-19 group. -/
def tleTextG19 : String :=
  "GOES 19\n" ++ stubTleG19.line1 ++ "\n" ++ stubTleG19.line2 ++ "\n"

/-- Both directory listings resolve, but the element-set URL serves a TLE
text containing only GOES-19, so GOES-18's element set is missing. -/
def envTleOnly19 : GoesEnv :=
  { fetchImpl := fun url _ _ =>
      if url = goesNDirUrl "GOES19" then .ok ⟨200, g19Html, "", none, none⟩
      else if url = goesNDirUrl "GOES18" then .ok ⟨200, g18Html, "", none, none⟩
      else if url = CELESTRAK_GOES_TLE_URL then .ok ⟨200, tleTextG19, "", none, none⟩
      else .ok ⟨404, "", "", none, none⟩
    loadImage := fun _ => .ok imgC
    dateParse := fun _ => none
    now := 12345 }

def tlesOnly19 : TLEBySat := { G18 := none, G19 := some stubTleG19 }

/-- The cache store after the element-set fetch in `envTleOnly19`. -/
def tleStoreC : Store :=
  storeSet emptyStore (cacheKey CELESTRAK_GOES_TLE_URL)
    { url := CELESTRAK_GOES_TLE_URL, body := tleTextG19, etag := none,
      lastModified := none, fetchedAt := 12345, ttlMs := 6 * 60 * 60 * 1000 }

theorem tleFetchOnly19 :
    fetchGoesTLEsBySatId true envTleOnly19 emptyStore = (.ok tlesOnly19, tleStoreC, 1) := by
  rfl

/-- Witness for the amended C1, all three drop paths: GOES-18's image null
while GOES-19 survives, GOES-19's image null while GOES-18 survives, and
(in real-TLE mode) GOES-18's element set missing while its image resolved
and GOES-19 survives. -/
theorem C1_amended_partial_results_witness :
    (∃ f : SatFrame, (fetchLatestGoesFrames envG18404 false stubLib emptyStore).1 = .ok [f] ∧
      f.sat = SatId.G19 ∧ f.imageUrl = r19c.url) ∧
    (∃ f : SatFrame, (fetchLatestGoesFrames envG19404 false stubLib emptyStore).1 = .ok [f] ∧
      f.sat = SatId.G18 ∧ f.imageUrl = r18c.url) ∧
    (∃ f : SatFrame, (fetchLatestGoesFrames envTleOnly19 true stubLib emptyStore).1 = .ok [f] ∧
      f.sat = SatId.G19 ∧ f.imageUrl = r19c.url) :=
  ⟨C1_amended_partial_results.1 envG18404 false stubLib emptyStore stubTLEs emptyStore 0
      r19c stubTleG19 ⟨42164, 0, 0⟩ none rfl rfl rfl rfl (Or.inl rfl) rfl,
   C1_amended_partial_results.2 envG19404 false stubLib emptyStore stubTLEs emptyStore 0
      r18c stubTleG18 ⟨42164, 0, 0⟩ none rfl rfl rfl rfl (Or.inl rfl) rfl,
   C1_amended_partial_results.1 envTleOnly19 true stubLib emptyStore tlesOnly19
      tleStoreC 1
      r19c stubTleG19 ⟨42164, 0, 0⟩ (some r18c) tleFetchOnly19 rfl rfl rfl (Or.inr rfl) rfl⟩

/-! ## Claim C8 -/

theorem buildFrame_fields (lib : SatLib) (sat : SatId) (url : String) (image : Img)
    (ts : Int) (tle : TLE) (f : SatFrame)
    (h : buildFrame lib sat url image ts tle = .ok f) :
    f.sat = sat ∧ f.imageUrl = url ∧ f.timestamp = ts ∧
    propagateToEcefMeters lib tle ts = .ok f.satEcef_m := by
  unfold buildFrame at h
  cases hp : propagateToEcefMeters lib tle ts with
  | error e => rw [hp] at h; cases h
  | ok ecef =>
    rw [hp] at h
    cases h
    exact ⟨rfl, rfl, rfl, rfl⟩

/-- The conclusion of C8 for one built frame. -/
theorem frame_leaf (env : GoesEnv) (useRealTle : Bool) (lib : SatLib) (store : Store)
    (sat : SatId) (r : ResolvedImage) (tles : TLEBySat) (tle : TLE) (f : SatFrame)
    (st2 : Store) (n : Nat)
    (hres : resolveLatestImage env sat = .ok (some r))
    (htr : fetchGoesTLEsBySatId useRealTle env store = (.ok tles, st2, n))
    (htle : tleFor tles sat = some tle)
    (hb : buildFrame lib sat r.url r.image (validOrNow env.now r.timestamp) tle = .ok f) :
    (∃ r2 : ResolvedImage, resolveLatestImage env f.sat = .ok (some r2) ∧
      f.timestamp = validOrNow env.now r2.timestamp) ∧
    (∃ (tles2 : TLEBySat) (tle2 : TLE),
      (fetchGoesTLEsBySatId useRealTle env store).1 = .ok tles2 ∧
      tleFor tles2 f.sat = some tle2 ∧
      propagateToEcefMeters lib tle2 f.timestamp = .ok f.satEcef_m) := by
  obtain ⟨hs, hu, hts, hp⟩ := buildFrame_fields _ _ _ _ _ _ _ hb
  refine ⟨⟨r, ?_, ?_⟩, ⟨tles, tle, ?_, ?_, ?_⟩⟩
  · rw [hs]; exact hres
  · rw [hts]
  · rw [htr]
  · rw [hs]; exact htle
  · rw [hts]; exact hp

/-- C8: every frame returned by `fetchLatestGoesFrames` carries a valid
timestamp — the resolved image's timestamp when present, the current
instant otherwise — and its `satEcef_m` is the propagation of that
satellite's element set at the frame's own timestamp (not at call time). -/
theorem C8_frame_timestamp_and_ecef (env : GoesEnv) (useRealTle : Bool) (lib : SatLib)
    (store : Store) (frames : List SatFrame) (f : SatFrame)
    (hok : (fetchLatestGoesFrames env useRealTle lib store).1 = .ok frames)
    (hmem : f ∈ frames) :
    (∃ r : ResolvedImage, resolveLatestImage env f.sat = .ok (some r) ∧
      f.timestamp = validOrNow env.now r.timestamp) ∧
    (∃ (tles : TLEBySat) (tle : TLE),
      (fetchGoesTLEsBySatId useRealTle env store).1 = .ok tles ∧
      tleFor tles f.sat = some tle ∧
      propagateToEcefMeters lib tle f.timestamp = .ok f.satEcef_m) := by
  simp only [fetchLatestGoesFrames] at hok
  cases h19 : resolveLatestImage env SatId.G19 with
  | error e => simp only [h19] at hok; exact absurd hok (by simp)
  | ok g19 =>
  simp only [h19] at hok
  cases h18 : resolveLatestImage env SatId.G18 with
  | error e => simp only [h18] at hok; exact absurd hok (by simp)
  | ok g18 =>
  simp only [h18] at hok
  rcases htr : fetchGoesTLEsBySatId useRealTle env store with ⟨tres, st2, n⟩
  simp only [htr] at hok
  cases tres with
  | error e => simp at hok
  | ok tles =>
  rw [← htr]
  cases g19 with
  | none =>
    cases g18 with
    | none => simp at hok; subst hok; cases hmem
    | some r18 =>
      cases ht18 : tles.G18 with
      | none => simp only [ht18] at hok; simp at hok; subst hok; cases hmem
      | some tle18 =>
        simp only [ht18] at hok
        cases hb : buildFrame lib .G18 r18.url r18.image (validOrNow env.now r18.timestamp) tle18 with
        | error e => simp only [hb] at hok; simp at hok
        | ok f18 =>
          simp only [hb] at hok
          simp at hok
          subst hok
          simp at hmem
          subst hmem
          exact frame_leaf env useRealTle lib store .G18 r18 tles tle18 f st2 n h18 htr ht18 hb
  | some r19 =>
    cases ht19 : tles.G19 with
    | none =>
      simp only [ht19] at hok
      cases g18 with
      | none => simp at hok; subst hok; cases hmem
      | some r18 =>
        cases ht18 : tles.G18 with
        | none => simp only [ht18] at hok; simp at hok; subst hok; cases hmem
        | some tle18 =>
          simp only [ht18] at hok
          cases hb : buildFrame lib .G18 r18.url r18.image (validOrNow env.now r18.timestamp) tle18 with
          | error e => simp only [hb] at hok; simp at hok
          | ok f18 =>
            simp only [hb] at hok
            simp at hok
            subst hok
            simp at hmem
            subst hmem
            exact frame_leaf env useRealTle lib store .G18 r18 tles tle18 f st2 n h18 htr ht18 hb
    | some tle19 =>
      simp only [ht19] at hok
      cases hb19 : buildFrame lib .G19 r19.url r19.image (validOrNow env.now r19.timestamp) tle19 with
      | error e => simp only [hb19] at hok; simp at hok
      | ok f19 =>
        simp only [hb19] at hok
        cases g18 with
        | none =>
          simp at hok
          subst hok
          simp at hmem
          subst hmem
          exact frame_leaf env useRealTle lib store .G19 r19 tles tle19 f st2 n h19 htr ht19 hb19
        | some r18 =>
          cases ht18 : tles.G18 with
          | none =>
            simp only [ht18] at hok
            simp at hok
            subst hok
            simp at hmem
            subst hmem
            exact frame_leaf env useRealTle lib store .G19 r19 tles tle19 f st2 n h19 htr ht19 hb19
          | some tle18 =>
            simp only [ht18] at hok
            cases hb18 : buildFrame lib .G18 r18.url r18.image (validOrNow env.now r18.timestamp) tle18 with
            | error e => simp only [hb18] at hok; simp at hok
            | ok f18 =>
              simp only [hb18] at hok
              simp at hok
              subst hok
              simp at hmem
              rcases hmem with hmem | hmem
              · subst hmem
                exact frame_leaf env useRealTle lib store .G19 r19 tles tle19 f st2 n h19 htr ht19 hb19
              · subst hmem
                exact frame_leaf env useRealTle lib store .G18 r18 tles tle18 f st2 n h18 htr ht18 hb18

/-- The frames the model returns in the all-success single-satellite
scenario, and its head frame. -/
noncomputable def framesC : List SatFrame :=
  match (fetchLatestGoesFrames envG18404 false stubLib emptyStore).1 with
  | .ok l => l
  | .error _ => []

noncomputable def frameC : SatFrame :=
  match framesC with
  | f :: _ => f
  | [] =>
    { sat := .G18, band := "", imageUrl := "", image := ⟨0, 0, 0, 0⟩, width := 0,
      height := 0, aspect := 0, timestamp := 0, satEcef_m := ⟨0, 0, 0⟩, fovDeg := 0 }

/-- Witness for C8 on the concrete all-success scenario. -/
theorem C8_frame_timestamp_and_ecef_witness :
    (∃ r : ResolvedImage, resolveLatestImage envG18404 frameC.sat = .ok (some r) ∧
      frameC.timestamp = validOrNow envG18404.now r.timestamp) ∧
    (∃ (tles : TLEBySat) (tle : TLE),
      (fetchGoesTLEsBySatId false envG18404 emptyStore).1 = .ok tles ∧
      tleFor tles frameC.sat = some tle ∧
      propagateToEcefMeters stubLib tle frameC.timestamp = .ok frameC.satEcef_m) :=
  C8_frame_timestamp_and_ecef envG18404 false stubLib emptyStore framesC frameC rfl
    (by rw [show framesC = [frameC] from rfl]; exact List.mem_singleton_self frameC)

/-! ## Claim C10 -/

/-- C10: while `USE_REAL_TLE` is false (the default; `enableRealTleFetch`
not called), `fetchGoesTLEsBySatId` returns the hard-coded stub TLEs with
zero element-set network requests and an untouched cache store, and
`fetchLatestGoesFrames` is insensitive to the fetch strategy's behavior on
the element-set URL. -/
theorem C10_stub_tles_no_network :
    (∀ (env : GoesEnv) (store : Store),
      fetchGoesTLEsBySatId false env store = (.ok stubTLEs, store, 0)) ∧
    (∀ (env1 env2 : GoesEnv) (lib : SatLib) (store : Store),
      (∀ url a b, url ≠ CELESTRAK_GOES_TLE_URL → env1.fetchImpl url a b = env2.fetchImpl url a b) →
      env1.loadImage = env2.loadImage →
      env1.now = env2.now →
      fetchLatestGoesFrames env1 false lib store = fetchLatestGoesFrames env2 false lib store) := by
  have h1 : ∀ (env : GoesEnv) (store : Store),
      fetchGoesTLEsBySatId false env store = (.ok stubTLEs, store, 0) := fun _ _ => rfl
  refine ⟨h1, ?_⟩
  intro env1 env2 lib store hf hl hnow
  have hgri : ∀ satName : String, goesNDirUrl satName ≠ CELESTRAK_GOES_TLE_URL →
      getRecentImage env1 satName = getRecentImage env2 satName := by
    intro satName hne
    unfold getRecentImage
    rw [hf _ none none hne, hl]
  unfold fetchLatestGoesFrames
  rw [show resolveLatestImage env1 .G19 = resolveLatestImage env2 .G19 from
        hgri "GOES19" (by decide),
      show resolveLatestImage env1 .G18 = resolveLatestImage env2 .G18 from
        hgri "GOES18" (by decide),
      h1 env1 store, h1 env2 store, hnow]

def envCeleDown : GoesEnv :=
  { fetchImpl := fun url a b =>
      if url = CELESTRAK_GOES_TLE_URL then .error "tle down"
      else envG18404.fetchImpl url a b
    loadImage := envG18404.loadImage
    dateParse := envG18404.dateParse
    now := envG18404.now }

/-- Witness for C10: an environment whose fetch strategy throws on the
element-set URL changes nothing while the stub flag is off. -/
theorem C10_stub_tles_no_network_witness :
    fetchGoesTLEsBySatId false envCeleDown emptyStore = (.ok stubTLEs, emptyStore, 0) ∧
    fetchLatestGoesFrames envG18404 false stubLib emptyStore =
      fetchLatestGoesFrames envCeleDown false stubLib emptyStore := by
  constructor
  · exact C10_stub_tles_no_network.1 envCeleDown emptyStore
  · exact C10_stub_tles_no_network.2 envG18404 envCeleDown stubLib emptyStore
      (by intro url a b h; simp [envCeleDown, h]) rfl rfl

/-! ## Claim C9 -/

/-- C9: the compositor accumulates Σ(color·weight) and Σ(weight) over at
most four active sources; a source's weight vanishes when it fails the
facing, homogeneous-w or unit-square uv test and otherwise equals its
border fade times its facing dot product (times the sampled alpha, which
is 1 for the opaque satellite JPEGs — hypothesis `halpha`); zero total
weight yields exactly the Lambertian base fallback, positive total weight
yields `mix(base, Σ(color·weight)/Σweight, clamp(Σweight,0,1))`; hence a
point fully covered by one directly-facing in-frustum source outputs
exactly that source's color, and overlapping full-coverage sources are
averaged, not summed. -/
theorem C9_compositor :
    (∀ (P : Vec3R) (s : ProjSource), facingOf P s ≤ 0.01 →
      projectColor P s = ⟨0, 0, 0, 0⟩) ∧
    (∀ (P : Vec3R) (s : ProjSource), 0.01 < facingOf P s →
      (ndcRawOf P s).w = 0 → projectColor P s = ⟨0, 0, 0, 0⟩) ∧
    (∀ (P : Vec3R) (s : ProjSource), 0.01 < facingOf P s →
      (ndcRawOf P s).w ≠ 0 →
      ((uvOf P s).x < 0 ∨ 1 < (uvOf P s).x ∨ (uvOf P s).y < 0 ∨ 1 < (uvOf P s).y) →
      projectColor P s = ⟨0, 0, 0, 0⟩) ∧
    (∀ (P : Vec3R) (s : ProjSource), 0.01 < facingOf P s →
      (ndcRawOf P s).w ≠ 0 →
      ¬((uvOf P s).x < 0 ∨ 1 < (uvOf P s).x ∨ (uvOf P s).y < 0 ∨ 1 < (uvOf P s).y) →
      (s.tex (uvOf P s)).w = 1 →
      projectColor P s = ⟨(s.tex (uvOf P s)).x, (s.tex (uvOf P s)).y, (s.tex (uvOf P s)).z,
        fadeOf (uvOf P s) * facingOf P s⟩) ∧
    (∀ (n : Int) (s0 s1 s2 s3 : ProjSource) (P : Vec3R),
      alphaSum n s0 s1 s2 s3 P = 0 →
      shaderMain n s0 s1 s2 s3 P = ⟨(baseShade P).x, (baseShade P).y, (baseShade P).z, 1⟩) ∧
    (∀ (n : Int) (s0 s1 s2 s3 : ProjSource) (P : Vec3R),
      0 < alphaSum n s0 s1 s2 s3 P →
      shaderMain n s0 s1 s2 s3 P =
        ⟨(mix3 (baseShade P)
            (smul3 (1 / alphaSum n s0 s1 s2 s3 P) (colorSum n s0 s1 s2 s3 P))
            (clampR (alphaSum n s0 s1 s2 s3 P) 0 1)).x,
         (mix3 (baseShade P)
            (smul3 (1 / alphaSum n s0 s1 s2 s3 P) (colorSum n s0 s1 s2 s3 P))
            (clampR (alphaSum n s0 s1 s2 s3 P) 0 1)).y,
         (mix3 (baseShade P)
            (smul3 (1 / alphaSum n s0 s1 s2 s3 P) (colorSum n s0 s1 s2 s3 P))
            (clampR (alphaSum n s0 s1 s2 s3 P) 0 1)).z, 1⟩) ∧
    (∀ (s0 s1 s2 s3 : ProjSource) (P : Vec3R) (c : Vec3R),
      projectColor P s0 = ⟨c.x, c.y, c.z, 1⟩ →
      shaderMain 1 s0 s1 s2 s3 P = ⟨c.x, c.y, c.z, 1⟩) ∧
    (∀ (s0 s1 s2 s3 : ProjSource) (P : Vec3R) (c1 c2 : Vec3R),
      projectColor P s0 = ⟨c1.x, c1.y, c1.z, 1⟩ →
      projectColor P s1 = ⟨c2.x, c2.y, c2.z, 1⟩ →
      shaderMain 2 s0 s1 s2 s3 P =
        ⟨(c1.x + c2.x) / 2, (c1.y + c2.y) / 2, (c1.z + c2.z) / 2, 1⟩) ∧
    (∀ (n : Int) (s0 s1 s2 s3 : ProjSource) (P : Vec3R), 4 ≤ n →
      shaderMain n s0 s1 s2 s3 P = shaderMain 4 s0 s1 s2 s3 P) := by
  refine ⟨?p1, ?p2, ?p3, ?p4, ?p5, ?p6, ?p7, ?p8, ?p9⟩
  case p1 =>
    intro P s h
    unfold projectColor
    rw [if_neg (not_lt.mpr h)]
  case p2 =>
    intro P s h1 h2
    unfold projectColor
    rw [if_pos h1, if_pos h2]
  case p3 =>
    intro P s h1 h2 h3
    unfold projectColor
    rw [if_pos h1, if_neg h2, if_pos h3]
  case p4 =>
    intro P s h1 h2 h3 halpha
    unfold projectColor
    rw [if_pos h1, if_neg h2, if_neg h3]
    simp only [halpha, one_mul]
  case p5 =>
    intro n s0 s1 s2 s3 P h
    unfold shaderMain
    rw [h, if_neg (lt_irrefl 0)]
  case p6 =>
    intro n s0 s1 s2 s3 P h
    unfold shaderMain
    rw [if_pos h]
  case p7 =>
    intro s0 s1 s2 s3 P c h0
    have htot : alphaSum 1 s0 s1 s2 s3 P = 1 := by
      simp [alphaSum, h0]
    have hcol : colorSum 1 s0 s1 s2 s3 P = c := by
      simp only [colorSum, h0]
      refine Vec3R.ext ?_ ?_ ?_ <;>
        simp [add3, smul3]
    have hclamp : clampR (1 : ℝ) 0 1 = 1 := by
      rw [clampR, max_eq_left zero_le_one, min_self]
    unfold shaderMain
    rw [htot, hcol, if_pos one_pos, hclamp]
    refine Vec4R.ext ?_ ?_ ?_ rfl <;>
      simp [mix3, smul3]
  case p8 =>
    intro s0 s1 s2 s3 P c1 c2 h0 h1
    have htot : alphaSum 2 s0 s1 s2 s3 P = 2 := by
      simp [alphaSum, h0, h1]
      norm_num
    have hcol : colorSum 2 s0 s1 s2 s3 P = ⟨c1.x + c2.x, c1.y + c2.y, c1.z + c2.z⟩ := by
      simp only [colorSum, h0, h1]
      refine Vec3R.ext ?_ ?_ ?_ <;>
        simp [add3, smul3]
    have hclamp : clampR (2 : ℝ) 0 1 = 1 := by
      rw [clampR, max_eq_left (by norm_num), min_eq_right (by norm_num)]
    unfold shaderMain
    rw [htot, hcol, if_pos (by norm_num : (0:ℝ) < 2), hclamp]
    refine Vec4R.ext ?_ ?_ ?_ rfl <;>
      simp [mix3, smul3] <;> ring
  case p9 =>
    intro n s0 s1 s2 s3 P h
    have h0 : (0 : Int) < n := by omega
    have h1 : (1 : Int) < n := by omega
    have h2 : (2 : Int) < n := by omega
    have h3 : (3 : Int) < n := by omega
    unfold shaderMain alphaSum colorSum
    norm_num [h0, h1, h2, h3]

/-! Concrete compositor scenario: the surface point (0,0,1) on the unit
sphere, a projector looking straight down +Z from (0,0,2) with an identity
camera matrix and a projection putting the point at uv (0.5, 0.5). -/

noncomputable def Pc : Vec3R := ⟨0, 0, 1⟩

noncomputable def idMat4 : Mat4 :=
  ⟨1, 0, 0, 0, 0, 1, 0, 0, 0, 0, 1, 0, 0, 0, 0, 1⟩

/-- Perspective-like projection: w-row is (0,0,-1,0). -/
noncomputable def projMatC : Mat4 :=
  ⟨1, 0, 0, 0, 0, 1, 0, 0, 0, 0, 1, 0, 0, 0, -1, 0⟩

/-- Projection with a zero w-row, to exercise the homogeneous-w test. -/
noncomputable def projMatW0 : Mat4 :=
  ⟨1, 0, 0, 0, 0, 1, 0, 0, 0, 0, 1, 0, 0, 0, 0, 0⟩

/-- Projection pushing the point to uv.x = 2, outside the unit square. -/
noncomputable def projMatOut : Mat4 :=
  ⟨0, 0, -3, 0, 0, 1, 0, 0, 0, 0, 1, 0, 0, 0, -1, 0⟩

noncomputable def texC : Vec2R → Vec4R := fun _ => ⟨0.2, 0.4, 0.6, 1⟩

noncomputable def srcFull : ProjSource :=
  { tex := texC, cameraMatrix := idMat4, cameraPosition := ⟨0, 0, 2⟩,
    cameraProjection := projMatC }

noncomputable def srcBack : ProjSource :=
  { tex := texC, cameraMatrix := idMat4, cameraPosition := ⟨0, 0, -2⟩,
    cameraProjection := projMatC }

noncomputable def srcW0 : ProjSource :=
  { tex := texC, cameraMatrix := idMat4, cameraPosition := ⟨0, 0, 2⟩,
    cameraProjection := projMatW0 }

noncomputable def srcOut : ProjSource :=
  { tex := texC, cameraMatrix := idMat4, cameraPosition := ⟨0, 0, 2⟩,
    cameraProjection := projMatOut }

theorem facing_full : facingOf Pc srcFull = 1 := by
  unfold facingOf normalize3 sub3 dot3 Pc srcFull
  norm_num [Real.sqrt_one]

theorem facing_w0 : facingOf Pc srcW0 = 1 := by
  unfold facingOf normalize3 sub3 dot3 Pc srcW0
  norm_num [Real.sqrt_one]

theorem facing_out : facingOf Pc srcOut = 1 := by
  unfold facingOf normalize3 sub3 dot3 Pc srcOut
  norm_num [Real.sqrt_one]

theorem facing_back : facingOf Pc srcBack = -1 := by
  have h9 : Real.sqrt 9 = 3 := by
    rw [show (9 : ℝ) = 3 ^ 2 by norm_num]
    exact Real.sqrt_sq (by norm_num)
  unfold facingOf normalize3 sub3 dot3 Pc srcBack
  norm_num [Real.sqrt_one, h9]

theorem inv_id_mulVec (v : Vec4R) : mulVec4 (inverse4 idMat4) v = v := by
  unfold inverse4 mulVec4 idMat4
  refine Vec4R.ext ?_ ?_ ?_ ?_ <;> norm_num

theorem ndc_full : ndcRawOf Pc srcFull = ⟨0, 0, -1, 1⟩ := by
  simp only [ndcRawOf]
  rw [show srcFull.cameraMatrix = idMat4 from rfl, inv_id_mulVec]
  unfold normalize3 sub3 dot3 Pc srcFull projMatC mulVec4
  refine Vec4R.ext ?_ ?_ ?_ ?_ <;> norm_num [Real.sqrt_one]

theorem ndc_w0 : ndcRawOf Pc srcW0 = ⟨0, 0, -1, 0⟩ := by
  simp only [ndcRawOf]
  rw [show srcW0.cameraMatrix = idMat4 from rfl, inv_id_mulVec]
  unfold normalize3 sub3 dot3 Pc srcW0 projMatW0 mulVec4
  refine Vec4R.ext ?_ ?_ ?_ ?_ <;> norm_num [Real.sqrt_one]

theorem ndc_out : ndcRawOf Pc srcOut = ⟨3, 0, -1, 1⟩ := by
  simp only [ndcRawOf]
  rw [show srcOut.cameraMatrix = idMat4 from rfl, inv_id_mulVec]
  unfold normalize3 sub3 dot3 Pc srcOut projMatOut mulVec4
  refine Vec4R.ext ?_ ?_ ?_ ?_ <;> norm_num [Real.sqrt_one]

theorem uv_full : uvOf Pc srcFull = ⟨0.5, 0.5⟩ := by
  unfold uvOf
  rw [ndc_full]
  norm_num

theorem uv_out : uvOf Pc srcOut = ⟨2, 0.5⟩ := by
  unfold uvOf
  rw [ndc_out]
  norm_num

theorem smoothstep_half : smoothstepR 0 0.1 0.5 = 1 := by
  unfold smoothstepR clampR
  rw [show ((0.5 : ℝ) - 0) / (0.1 - 0) = 5 by norm_num,
      max_eq_left (by norm_num : (0 : ℝ) ≤ 5),
      min_eq_right (by norm_num : (1 : ℝ) ≤ 5)]
  norm_num

theorem fade_center : fadeOf ⟨0.5, 0.5⟩ = 1 := by
  have h : (1 : ℝ) - 0.5 = 0.5 := by norm_num
  simp only [fadeOf, h, smoothstep_half]
  norm_num

theorem projectColor_full : projectColor Pc srcFull = ⟨0.2, 0.4, 0.6, 1⟩ := by
  unfold projectColor
  rw [facing_full, if_pos (by norm_num : (0.01 : ℝ) < 1), ndc_full]
  rw [if_neg (by norm_num : ¬(1 : ℝ) = 0), uv_full]
  rw [if_neg (by norm_num :
    ¬((Vec2R.mk 0.5 0.5).x < 0 ∨ 1 < (Vec2R.mk 0.5 0.5).x ∨
      (Vec2R.mk 0.5 0.5).y < 0 ∨ 1 < (Vec2R.mk 0.5 0.5).y))]
  rw [show srcFull.tex ⟨0.5, 0.5⟩ = ⟨0.2, 0.4, 0.6, 1⟩ from rfl, fade_center]
  refine Vec4R.ext rfl rfl rfl ?_
  norm_num

/-- Witness for C9: each part of the compositor theorem exercised at the
concrete scenario (back-facing source, zero-w source, out-of-frustum
source, full-coverage source, empty aggregation, one- and two-source
aggregation, and the four-source cap). -/
theorem C9_compositor_witness :
    projectColor Pc srcBack = ⟨0, 0, 0, 0⟩ ∧
    projectColor Pc srcW0 = ⟨0, 0, 0, 0⟩ ∧
    projectColor Pc srcOut = ⟨0, 0, 0, 0⟩ ∧
    projectColor Pc srcFull = ⟨(srcFull.tex (uvOf Pc srcFull)).x,
      (srcFull.tex (uvOf Pc srcFull)).y, (srcFull.tex (uvOf Pc srcFull)).z,
      fadeOf (uvOf Pc srcFull) * facingOf Pc srcFull⟩ ∧
    shaderMain 0 srcFull srcFull srcFull srcFull Pc =
      ⟨(baseShade Pc).x, (baseShade Pc).y, (baseShade Pc).z, 1⟩ ∧
    shaderMain 1 srcFull srcBack srcBack srcBack Pc =
      ⟨(mix3 (baseShade Pc)
          (smul3 (1 / alphaSum 1 srcFull srcBack srcBack srcBack Pc)
            (colorSum 1 srcFull srcBack srcBack srcBack Pc))
          (clampR (alphaSum 1 srcFull srcBack srcBack srcBack Pc) 0 1)).x,
       (mix3 (baseShade Pc)
          (smul3 (1 / alphaSum 1 srcFull srcBack srcBack srcBack Pc)
            (colorSum 1 srcFull srcBack srcBack srcBack Pc))
          (clampR (alphaSum 1 srcFull srcBack srcBack srcBack Pc) 0 1)).y,
       (mix3 (baseShade Pc)
          (smul3 (1 / alphaSum 1 srcFull srcBack srcBack srcBack Pc)
            (colorSum 1 srcFull srcBack srcBack srcBack Pc))
          (clampR (alphaSum 1 srcFull srcBack srcBack srcBack Pc) 0 1)).z, 1⟩ ∧
    shaderMain 1 srcFull srcBack srcBack srcBack Pc = ⟨0.2, 0.4, 0.6, 1⟩ ∧
    shaderMain 2 srcFull srcFull srcBack srcBack Pc =
      ⟨(0.2 + 0.2) / 2, (0.4 + 0.4) / 2, (0.6 + 0.6) / 2, 1⟩ ∧
    shaderMain 5 srcFull srcBack srcFull srcBack Pc =
      shaderMain 4 srcFull srcBack srcFull srcBack Pc := by
  have hback : projectColor Pc srcBack = ⟨0, 0, 0, 0⟩ :=
    C9_compositor.1 Pc srcBack (by rw [facing_back]; norm_num)
  have hfull : projectColor Pc srcFull = ⟨0.2, 0.4, 0.6, 1⟩ := projectColor_full
  have htot1 : alphaSum 1 srcFull srcBack srcBack srcBack Pc = 1 := by
    simp [alphaSum, hfull]
  refine ⟨hback, ?_, ?_, ?_, ?_, ?_, ?_, ?_, ?_⟩
  · exact C9_compositor.2.1 Pc srcW0
      (by rw [facing_w0]; norm_num) (by rw [ndc_w0])
  · exact C9_compositor.2.2.1 Pc srcOut
      (by rw [facing_out]; norm_num) (by rw [ndc_out]; norm_num)
      (by rw [uv_out]; norm_num)
  · exact C9_compositor.2.2.2.1 Pc srcFull
      (by rw [facing_full]; norm_num) (by rw [ndc_full]; norm_num)
      (by rw [uv_full]; norm_num)
      (by rw [uv_full]; exact rfl)
  · exact C9_compositor.2.2.2.2.1 0 srcFull srcFull srcFull srcFull Pc
      (by simp [alphaSum])
  · exact C9_compositor.2.2.2.2.2.1 1 srcFull srcBack srcBack srcBack Pc
      (by rw [htot1]; norm_num)
  · exact C9_compositor.2.2.2.2.2.2.1 srcFull srcBack srcBack srcBack Pc
      ⟨0.2, 0.4, 0.6⟩ hfull
  · exact C9_compositor.2.2.2.2.2.2.2.1 srcFull srcFull srcBack srcBack Pc
      ⟨0.2, 0.4, 0.6⟩ ⟨0.2, 0.4, 0.6⟩ hfull hfull
  · exact C9_compositor.2.2.2.2.2.2.2.2 5 srcFull srcBack srcFull srcBack Pc
      (by norm_num)

end Skybox
